import Mathlib

/-!
Shallow embedding of the quality-scoring and retry core of
`src/faq-generator-cosmetics.py` (class `PremiumCosmeticsFAQGenerator`),
together with theorems settling the frozen claims about it.

Conventions of the embedding:
* Product records (pandas rows turned into dicts) are association lists
  from column name to string value; a missing key models a missing column.
* Python `float` values that arise from `puntuacion_total / 5` are exact
  multiples of 1/5 in the ranges reachable by the scorer, so the mean
  score is represented exactly as the rational `Rat.divInt total 5`.
  (For the magnitudes involved, IEEE rounding is strictly monotone on
  distinct fifths and exact on the integer thresholds 4, 5, 6, 8, so the
  float comparisons of the source coincide with the rational ones.)
* Code that can raise an exception is modelled with `Option`
  (`none` = the Python code raises at that point).
* The field `puntuacion_promedio` of the source is called
  `puntuacion_media` here; `promedio` itself is not a usable identifier
  in this development.
-/

/-! ### Python string primitives used by the source -/

/-- Whitespace characters recognised by Python `str.split()` / `str.strip()`
for the ASCII range (the inputs of this program). -/
def pyEsEspacio (c : Char) : Bool :=
  c = ' ' || c = '\t' || c = '\n' || c = '\r' || c = '\x0b' || c = '\x0c'

/-- Lower-casing as Python `str.lower()` does on the alphabet this program
uses: ASCII letters plus the accented Spanish capitals. -/
def pyMinusculaChar (c : Char) : Char :=
  if c = 'Á' then 'á' else if c = 'É' then 'é' else if c = 'Í' then 'í'
  else if c = 'Ó' then 'ó' else if c = 'Ú' then 'ú' else if c = 'Ü' then 'ü'
  else if c = 'Ñ' then 'ñ' else c.toLower

/-- Python `s.lower()`. -/
def pyMinuscula (s : String) : String := ⟨s.data.map pyMinusculaChar⟩

/-- Python `sub in s` (substring containment) on character lists. -/
def esInfijo (aguja : List Char) : List Char → Bool
  | [] => aguja.isEmpty
  | c :: resto => aguja.isPrefixOf (c :: resto) || esInfijo aguja resto

/-- Python `sub in s` on strings. -/
def contiene (s sub : String) : Bool := esInfijo sub.data s.data

/-- Python `s.startswith(p)`. -/
def pyEmpiezaCon (s p : String) : Bool := p.data.isPrefixOf s.data

/-- Python `s.endswith(p)`. -/
def pyTerminaCon (s p : String) : Bool := p.data.isSuffixOf s.data

/-- Python `s[n:]`. -/
def pyDesde (s : String) (n : Nat) : String := ⟨s.data.drop n⟩

/-- Python `s[:-n]` for `n ≤ len(s)` (and `""` when `n > len(s)`,
matching Python slicing). -/
def pySinUltimos (s : String) (n : Nat) : String := ⟨s.data.take (s.data.length - n)⟩

/-- Python `s.strip()`. -/
def pyRecorta (s : String) : String :=
  ⟨((s.data.dropWhile pyEsEspacio).reverse.dropWhile pyEsEspacio).reverse⟩

/-- The whitespace-separated words of a character list, as produced by
Python `str.split()` with no arguments (empty chunks dropped). -/
def palabrasDe : List Char → List (List Char)
  | [] => []
  | c :: cs =>
    let resto := palabrasDe cs
    if pyEsEspacio c then resto
    else
      match cs with
      | [] => [[c]]
      | d :: _ =>
        if pyEsEspacio d then [c] :: resto
        else
          match resto with
          | [] => [[c]]
          | w :: ws => (c :: w) :: ws

/-- Python `len(s.split())`: number of whitespace-separated words. -/
def numPalabras (s : String) : Nat := (palabrasDe s.data).length

/-- Python `' '.join(s.split())`: collapse whitespace runs. -/
def normalizaEspacios (cs : List Char) : String :=
  String.intercalate " " ((palabrasDe cs).map fun w => ⟨w⟩)

/-- Python `s.count(c)` for a single character. -/
def cuentaChar (s : String) (c : Char) : Nat := s.data.count c

/-! ### `limpiar_html`: the regex `re.sub('<.*?>', ' ', texto)` followed by
whitespace normalisation.  The non-greedy `<.*?>` consumes from a `<` up to
the first following `>`, with `.` not matching a newline. -/

/-- Scan for the `>` closing a regex match of `<.*?>`: returns the rest of
the input after that `>`, or `none` when a newline or the end of input is
reached first (the regex `.` does not match `\n`). -/
def buscaCierre : List Char → Option (List Char)
  | [] => none
  | c :: cs => if c = '>' then some cs else if c = '\n' then none else buscaCierre cs

/-- One left-to-right pass of `re.sub('<.*?>', ' ', ·)`, fuelled by the
input length (each step consumes at least one character). -/
def quitaEtiquetas : Nat → List Char → List Char
  | 0, cs => cs
  | _ + 1, [] => []
  | fuel + 1, c :: cs =>
    if c = '<' then
      match buscaCierre cs with
      | some resto => ' ' :: quitaEtiquetas fuel resto
      | none => c :: quitaEtiquetas fuel cs
    else c :: quitaEtiquetas fuel cs

/-- `limpiar_html` of the source: strip HTML tags, then collapse whitespace. -/
def limpiar_html (texto_html : String) : String :=
  normalizaEspacios (quitaEtiquetas (texto_html.data.length + 1) texto_html.data)

/-! ### Product records -/

/-- A product record: the row dictionary handed to the generator.  Values
are the string contents of the CSV cells. -/
abbrev Producto := List (String × String)

/-- Python `producto[k]` / `k in producto`: first binding of the key. -/
def pObtener : Producto → String → Option String
  | [], _ => none
  | (k, v) :: resto, clave => if k = clave then some v else pObtener resto clave

/-- Python `producto.get(k, d)`. -/
def pObtenerD (p : Producto) (clave d : String) : String := (pObtener p clave).getD d

/-- Python `k in producto`. -/
def pTiene (p : Producto) (clave : String) : Bool := (pObtener p clave).isSome

/-- Python `producto[k] = v`: replace the binding, or append it when
absent (dict insertion order). -/
def pAsignar : Producto → String → String → Producto
  | [], clave, v => [(clave, v)]
  | (k, w) :: resto, clave, v =>
    if k = clave then (clave, v) :: resto else (k, w) :: pAsignar resto clave v

/-- Python `str(producto)` for a dict of strings, as used by the category
selector's `'retinol' in str(producto).lower()` test. -/
def strProducto (p : Producto) : String :=
  "\x7b" ++ String.intercalate ", "
    (p.map fun kv => "'" ++ kv.1 ++ "': '" ++ kv.2 ++ "'") ++ "\x7d"

/-- `obtener_descripcion_producto`: first non-empty of the candidate
description columns, HTML-cleaned; `""` when none is present. -/
def obtenerDescAux (p : Producto) : List String → String
  | [] => ""
  | col :: resto =>
    match pObtener p col with
    | some v => if v = "" then obtenerDescAux p resto else limpiar_html v
    | none => obtenerDescAux p resto

/-- `obtener_descripcion_producto` of the source. -/
def obtener_descripcion_producto (p : Producto) : String :=
  obtenerDescAux p ["Body HTML", "Body (HTML)", "body_html", "description", "Description"]

/-! ### Python `float(...)` on strings -/

/-- Result of a successful Python `float(s)` conversion. -/
inductive PyFloat where
  | finito (q : ℚ)
  | masInf
  | menosInf
  | nan
deriving DecidableEq

/-- Python `f > c` for a float `f` and an exactly-representable bound. -/
def PyFloat.mayorQue (f : PyFloat) (c : ℚ) : Bool :=
  match f with
  | .finito q => decide (c < q)
  | .masInf => true
  | .menosInf => false
  | .nan => false

/-- Consume a run of digits with Python's underscore grouping
(`1_000`); returns accumulated value, digit count, and the rest.  A
trailing or doubled underscore is left unconsumed (and makes the overall
conversion fail, matching Python). -/
def trozoDigitos : List Char → Nat → Nat → Nat × Nat × List Char
  | c :: cs, acc, n =>
    if c.isDigit then trozoDigitos cs (acc * 10 + (c.toNat - 48)) (n + 1)
    else if c = '_' then
      match cs with
      | d :: _ => if d.isDigit then trozoDigitos cs acc n else (acc, n, c :: cs)
      | [] => (acc, n, c :: cs)
    else (acc, n, c :: cs)
  | [], acc, n => (acc, n, [])

/-- Parse the exponent part `[eE][+-]?digits` (if present); `none` means a
malformed exponent, `some (e, resto)` the signed exponent and the rest. -/
def trozoExponente : List Char → Option (Int × List Char)
  | c :: cs =>
    if c = 'e' ∨ c = 'E' then
      let (signo, cs') : Int × List Char :=
        match cs with
        | '+' :: t => (1, t)
        | '-' :: t => (-1, t)
        | t => (1, t)
      match cs' with
      | d :: _ =>
        if d.isDigit then
          let (e, _, resto) := trozoDigitos cs' 0 0
          some (signo * e, resto)
        else none
      | [] => none
    else some (0, c :: cs)
  | [] => some (0, [])

/-- Parse the unsigned numeric body of a Python float literal; `none` on
failure, otherwise integer part, fraction digits (as value and count),
signed exponent, and the unconsumed rest. -/
def trozoMantisa (cs : List Char) : Option (Nat × Nat × Nat × Int × List Char) :=
  match cs with
  | c :: _ =>
    if c.isDigit then
      let (ent, _, r1) := trozoDigitos cs 0 0
      let (fracNum, fracDig, r2) : Nat × Nat × List Char :=
        match r1 with
        | '.' :: r => match r with
          | d :: _ => if d.isDigit then trozoDigitos r 0 0 else (0, 0, r)
          | [] => (0, 0, r)
        | r => (0, 0, r)
      match trozoExponente r2 with
      | some (e, r3) => some (ent, fracNum, fracDig, e, r3)
      | none => none
    else if c = '.' then
      match cs with
      | _ :: r =>
        match r with
        | d :: _ =>
          if d.isDigit then
            let (fracNum, fracDig, r2) := trozoDigitos r 0 0
            match trozoExponente r2 with
            | some (e, r3) => some (0, fracNum, fracDig, e, r3)
            | none => none
          else none
        | [] => none
      | [] => none
    else none
  | [] => none

/-- The rational value of a parsed float literal, assembled with integer
arithmetic only: `(ent.fracción) × 10^e`. -/
def valorMantisa (ent fracNum fracDig : Nat) (e : Int) : ℚ :=
  let num : Int := (ent * 10 ^ fracDig + fracNum : Nat)
  if 0 ≤ e then Rat.divInt (num * 10 ^ e.toNat) (10 ^ fracDig)
  else Rat.divInt num ((10 ^ fracDig : Nat) * 10 ^ (-e).toNat)

/-- Python `float(s)` on a string: `none` models a raised `ValueError`. -/
def pyFloat (s : String) : Option PyFloat :=
  let t := pyRecorta s
  let (neg, cuerpo) : Bool × List Char :=
    match t.data with
    | '+' :: r => (false, r)
    | '-' :: r => (true, r)
    | r => (false, r)
  let bajo := pyMinuscula ⟨cuerpo⟩
  if bajo = "inf" ∨ bajo = "infinity" then some (if neg then .menosInf else .masInf)
  else if bajo = "nan" then some .nan
  else
    match trozoMantisa cuerpo with
    | some (ent, fracNum, fracDig, e, []) =>
      let v := valorMantisa ent fracNum fracDig e
      some (.finito (if neg then -v else v))
    | _ => none

/-! ### `analizar_producto_profundo` and `detectar_tipo_producto` -/

/-- The Feature Profile returned by `analizar_producto_profundo`. -/
structure Analisis where
  tiene_ingredientes : Bool
  es_tratamiento : Bool
  menciona_edad : Bool
  tipo_producto : String
  precio_alto : Bool
  marca_premium : Bool
deriving DecidableEq

/-- The keyword table of `detectar_tipo_producto`, in source (dict
insertion) order. -/
def tiposProducto : List (String × List String) :=
  [("serum", ["serum", "sérum", "suero"]),
   ("crema", ["crema", "cream", "moisturizer"]),
   ("limpiador", ["limpiador", "cleanser", "jabón", "gel limpiador"]),
   ("mascarilla", ["mascarilla", "mask", "máscara"]),
   ("contorno_ojos", ["ojos", "eye", "contorno", "ojeras"]),
   ("tratamiento", ["tratamiento", "treatment", "ampolla"]),
   ("protector", ["spf", "protector", "solar", "sunscreen"])]

/-- First type whose keyword group matches the text, else `"cosmético"`. -/
def primerTipo (texto : String) : List (String × List String) → String
  | [] => "cosmético"
  | (tipo, palabras) :: resto =>
    if palabras.any (fun w => contiene texto w) then tipo else primerTipo texto resto

/-- `detectar_tipo_producto` of the source. -/
def detectar_tipo_producto (titulo descripcion : String) : String :=
  primerTipo (pyMinuscula (titulo ++ " " ++ descripcion)) tiposProducto

/-- `analizar_producto_profundo` of the source.  `none` models the
`ValueError` raised by `float(producto.get('Variant Price', 0))` on a
truthy but unparsable price (the other fields cannot raise). -/
def analizar_producto_profundo (producto : Producto) : Option Analisis :=
  let descripcion := pyMinuscula (obtener_descripcion_producto producto)
  let precioAlto? : Option Bool :=
    match pObtener producto "Variant Price" with
    | none => some false
    | some v =>
      if v = "" then some false
      else
        match pyFloat v with
        | some f => some (f.mayorQue 50)
        | none => none
  precioAlto?.map fun pa =>
    { tiene_ingredientes :=
        ["ácido", "retinol", "vitamina", "colágeno", "hialurónico"].any
          fun w => contiene descripcion w
      es_tratamiento :=
        ["tratamiento", "serum", "intensivo", "concentrado"].any
          fun w => contiene descripcion w
      menciona_edad :=
        ["antiedad", "arrugas", "firmeza", "madur"].any
          fun w => contiene descripcion w
      tipo_producto :=
        detectar_tipo_producto (pObtenerD producto "Title" "")
          (obtener_descripcion_producto producto)
      precio_alto := pa
      marca_premium :=
        ["Natura Bissé", "La Mer", "Sisley", "La Prairie"].contains
          (pObtenerD producto "Vendor" "") }

/-! ### `enriquecer_descripcion_basica` -/

/-- First keyword group that matches, returning its boilerplate sentences;
models the `if/elif` chains of `enriquecer_descripcion_basica`. -/
def primeraCoincidencia (texto : String) : List (List String × List String) → List String
  | [] => []
  | (palabras, frases) :: resto =>
    if palabras.any (fun w => contiene texto w) then frases
    else primeraCoincidencia texto resto

/-- The product-type boilerplate of `enriquecer_descripcion_basica`
(matched against the lowered title, in source order). -/
def infoPorTipo (titulo : String) : List String :=
  primeraCoincidencia titulo
    [(["serum", "sérum", "suero"],
      ["Tratamiento concentrado en formato sérum de rápida absorción.",
       "Aplicar sobre piel limpia antes de la crema hidratante."]),
     (["crema", "cream", "moisturizer"],
      ["Crema facial de textura rica que proporciona hidratación profunda.",
       "Aplicar mañana y/o noche con movimientos circulares."]),
     (["contorno", "eye", "ojos"],
      ["Tratamiento específico para el delicado contorno de ojos.",
       "Aplicar con pequeños toques desde el lagrimal hacia la sien."]),
     (["limpiador", "cleanser", "gel"],
      ["Producto de limpieza facial que elimina impurezas y maquillaje.",
       "Aplicar sobre piel húmeda, masajear suavemente y aclarar."]),
     (["mascarilla", "mask"],
      ["Mascarilla facial de tratamiento intensivo.",
       "Aplicar en capa gruesa, dejar actuar y retirar según instrucciones."])]

/-- The ingredient boilerplate of `enriquecer_descripcion_basica`
(matched against lowered title + tags, in source order). -/
def infoPorIngrediente (tituloTags : String) : List String :=
  primeraCoincidencia tituloTags
    [(["retinol", "retinal"],
      ["Contiene retinol, ingrediente antiedad de eficacia comprobada.",
       "Usar preferentemente por la noche y complementar con SPF durante el día."]),
     (["vitamina c", "vitamin c"],
      ["Rico en vitamina C, potente antioxidante que ilumina la piel.",
       "Ideal para uso matutino seguido de protector solar."]),
     (["acido", "acid", "ácido"],
      ["Formulado con ácidos que renuevan y mejoran la textura de la piel.",
       "Introducir gradualmente en la rutina para evitar irritaciones."]),
     (["hialuronico", "hyaluronic"],
      ["Contiene ácido hialurónico para hidratación profunda y duradera."])]

/-- The price-tier boilerplate: `float(precio) if precio else 0` inside a
`try`, so an unparsable truthy price skips this section (`except: pass`). -/
def infoPorPrecio (precioCampo : Option String) : List String :=
  let flotante : Option PyFloat :=
    match precioCampo with
    | none => some (.finito 0)
    | some v => if v = "" then some (.finito 0) else pyFloat v
  match flotante with
  | none => []
  | some f =>
    if f.mayorQue 80 then ["Producto premium de alta gama con ingredientes selectos."]
    else if f.mayorQue 40 then ["Producto de gama media-alta con fórmula avanzada."]
    else if f.mayorQue 15 then ["Producto de calidad con excelente relación calidad-precio."]
    else []

/-- The brand boilerplate of `enriquecer_descripcion_basica`. -/
def infoPorMarca (vendor : String) : List String :=
  if ["natura bissé", "la mer", "sisley", "la prairie", "skinceuticals"].contains
      (pyMinuscula vendor)
  then ["Desarrollado por " ++ vendor ++ ", marca de prestigio en cosmética de lujo."]
  else []

/-- `enriquecer_descripcion_basica` of the source. -/
def enriquecer_descripcion_basica (producto : Producto) (descripcion : String) : String :=
  let titulo := pyMinuscula (pObtenerD producto "Title" "")
  let vendor := pObtenerD producto "Vendor" ""
  let tags := pyMinuscula (pObtenerD producto "Tags" "")
  let info_adicional :=
    infoPorTipo titulo ++ infoPorIngrediente (titulo ++ " " ++ tags)
      ++ infoPorPrecio (pObtener producto "Variant Price") ++ infoPorMarca vendor
  if info_adicional.isEmpty then descripcion
  else descripcion ++ " " ++ String.intercalate " " (info_adicional.take 3)

/-- The description write-back step at the top of
`generar_faqs_con_reintentos_mejorado` (lines 495–503): when the cleaned
description is shorter than 50 characters, the enriched description is
stored back into the record, under `'Body HTML'` when that key exists and
under `'Body (HTML)'` otherwise. -/
def actualizar_descripcion (producto : Producto) : Producto :=
  let descripcion := obtener_descripcion_producto producto
  if descripcion.length < 50 then
    let enriquecida := enriquecer_descripcion_basica producto descripcion
    if pTiene producto "Body HTML" then pAsignar producto "Body HTML" enriquecida
    else pAsignar producto "Body (HTML)" enriquecida
  else producto

/-! ### Category selection (`seleccionar_categorias_aleatorias`) -/

/-- The 8 keys of `self.banco_preguntas`, in dict insertion order. -/
def todas_categorias : List String :=
  ["aplicacion", "compatibilidad", "resultados", "ingredientes",
   "diferenciacion", "combinaciones", "conservacion", "precauciones"]

/-- The priority categories computed by `seleccionar_categorias_aleatorias`
from the Feature Profile and the record text. -/
def prioridades (producto : Producto) (analisis : Analisis) : List String :=
  (if analisis.tiene_ingredientes then ["ingredientes"] else []) ++
  (if analisis.es_tratamiento then ["resultados", "combinaciones"] else []) ++
  (if analisis.precio_alto then ["diferenciacion"] else []) ++
  (if contiene (pyMinuscula (strProducto producto)) "retinol"
      || contiene (pyMinuscula (strProducto producto)) "ácido"
   then ["precauciones"] else [])

/-- One possible outcome of the random choices inside
`seleccionar_categorias_aleatorias`: `random.sample` returns a
permutation of a sublist of its input of the requested length, and
`random.shuffle` permutes.  The function's return value is
`finales.take 5`. -/
structure SeleccionCategorias (producto : Producto) (analisis : Analisis) where
  seleccionadas : List String
  adicionales : List String
  finales : List String
  muestra_sel : List.Subperm seleccionadas (prioridades producto analisis)
  largo_sel : seleccionadas.length = min 2 (prioridades producto analisis).length
  muestra_ad : List.Subperm adicionales
    (todas_categorias.filter (fun cat => ¬ seleccionadas.contains cat))
  largo_ad : adicionales.length = 5 - seleccionadas.length
  barajadas : finales.Perm (seleccionadas ++ adicionales)

/-- The return value of `seleccionar_categorias_aleatorias` for a given
outcome of the random choices. -/
def SeleccionCategorias.resultado {p : Producto} {a : Analisis}
    (s : SeleccionCategorias p a) : List String := s.finales.take 5

/-! ### The Quality Scorer (`validar_calidad_faqs_mejorada`) -/

/-- One `faqN` entry as the scorer sees it: `none` for a missing
`pregunta`/`respuesta` key (the scorer substitutes `''`, but the final
result assembly indexes the key directly and would raise `KeyError`). -/
structure FaqPar where
  pregunta : Option String
  respuesta : Option String
deriving DecidableEq

/-- A parsed generation response: the five `faq1..faq5` entries, `none`
when the key is absent from the JSON object. -/
structure FaqSet where
  faq1 : Option FaqPar
  faq2 : Option FaqPar
  faq3 : Option FaqPar
  faq4 : Option FaqPar
  faq5 : Option FaqPar
deriving DecidableEq

/-- The `(pregunta, respuesta)` texts the scorer works on for one slot:
missing entries and missing fields default to `''` via `dict.get`. -/
def parEfectivo (o : Option FaqPar) : String × String :=
  match o with
  | none => ("", "")
  | some fp => (fp.pregunta.getD "", fp.respuesta.getD "")

/-- The five effective text pairs of a FAQ set, in slot order. -/
def paresEfectivos (fs : FaqSet) : List (String × String) :=
  [parEfectivo fs.faq1, parEfectivo fs.faq2, parEfectivo fs.faq3,
   parEfectivo fs.faq4, parEfectivo fs.faq5]

/-- `criterios_calidad['palabras_prohibidas']`. -/
def palabras_prohibidas : List String := ["cosa", "algo", "etc", "etcétera"]

/-- `palabras_tecnicas` of the scorer. -/
def palabras_tecnicas : List String :=
  ["dermatólog", "activos", "concentr", "fórmula", "ingredientes",
   "aplicación", "absorción", "penetración"]

/-- The instruction verbs of the scorer. -/
def palabrasInstrucciones : List String :=
  ["aplica", "usa", "espera", "combina", "evita", "recomendamos"]

/-- The benefit verbs of the scorer. -/
def palabrasBeneficios : List String :=
  ["reduce", "mejora", "aumenta", "estimula", "protege", "hidrata", "nutre"]

/-- The generic nouns penalising question specificity. -/
def palabrasGenericas : List String := ["producto", "esto", "eso", "cosa"]

/-- The alternation of the data regex
`\d+\s*(mg|ml|%|días?|semanas?|meses?|años?|veces?|minutos?|horas?)`
expanded into literal alternatives (note `meses?` matches `mese`/`meses`,
`veces?` matches `vece`/`veces`). -/
def unidadesDatos : List String :=
  ["mg", "ml", "%", "días", "día", "semanas", "semana", "meses", "mese",
   "años", "año", "veces", "vece", "minutos", "minuto", "horas", "hora"]

/-- Does the data regex match at the head of `cs`?  (`\d+` maximal munch
then `\s*` then an alternative; no alternative starts with a digit or a
space, so maximal munch is equivalent to backtracking.) -/
def datoEnCabeza (cs : List Char) : Bool :=
  match cs with
  | [] => false
  | c :: _ =>
    c.isDigit &&
      (let resto := (cs.dropWhile Char.isDigit).dropWhile (fun d => pyEsEspacio d)
       unidadesDatos.any fun u => u.data.isPrefixOf resto)

/-- `re.search` of the data regex over the lowered answer. -/
def tieneDatosEspecificos : List Char → Bool
  | [] => false
  | c :: cs => datoEnCabeza (c :: cs) || tieneDatosEspecificos cs

/-- The answer-length band points of the scorer (lines 414–421): `< 150`
earns nothing (and records a violation elsewhere), `200..300` earns 3,
`150..199` earns 2, anything longer earns 1. -/
def puntosLongitudRespuesta (l : Nat) : Int :=
  if l < 150 then 0
  else if 200 ≤ l ∧ l ≤ 300 then 3
  else if 150 ≤ l ∧ l < 200 then 2
  else 1

/-- Per-slot diagnostic detail recorded by the scorer. -/
structure DetalleFaq where
  puntuacion : Int
  longitud_pregunta : Nat
  longitud_respuesta : Nat
  tiene_datos : Bool
  tiene_tecnicas : Bool
  tiene_instrucciones : Bool
  tiene_beneficios : Bool
deriving DecidableEq

/-- Result of scoring one slot: its point total, its violations in source
order, and its diagnostic detail. -/
structure EvalFaq where
  puntuacion : Int
  errores : List String
  detalle : DetalleFaq
deriving DecidableEq

/-- Score one question/answer pair, exactly as the body of the
`for i in range(1, 6)` loop of `validar_calidad_faqs_mejorada` does. -/
def puntuar_faq (i : Nat) (pregunta respuesta : String) : EvalFaq :=
  let formatoBien := pyEmpiezaCon pregunta "¿" && pyTerminaCon pregunta "?"
  let e1 := if formatoBien then []
    else ["FAQ" ++ toString i ++ ": Pregunta mal formateada (debe empezar con ¿ y terminar con ?)"]
  let p1 : Int := if formatoBien then 1 else 0
  let palabras_pregunta := numPalabras pregunta
  let e2 := if palabras_pregunta < 5 then
      ["FAQ" ++ toString i ++ ": Pregunta demasiado corta (" ++ toString palabras_pregunta ++ " palabras)"]
    else []
  let p2 : Int := if palabras_pregunta < 5 then p1
    else if 8 ≤ palabras_pregunta ∧ palabras_pregunta ≤ 15 then p1 + 2 else p1 + 1
  let p3 : Int :=
    if palabrasGenericas.any (fun w => contiene (pyMinuscula pregunta) w) then p2 else p2 + 1
  let longitud_respuesta := respuesta.length
  let e3 := if longitud_respuesta < 150 then
      ["FAQ" ++ toString i ++ ": Respuesta muy corta (" ++ toString longitud_respuesta
        ++ " chars, mínimo 150)"]
    else []
  let p4 : Int := p3 + puntosLongitudRespuesta longitud_respuesta
  let e4 := if 350 < longitud_respuesta then
      ["FAQ" ++ toString i ++ ": Respuesta muy larga (" ++ toString longitud_respuesta
        ++ " chars, máximo 350)"]
    else []
  let respuestaBaja := pyMinuscula respuesta
  let prohibidasHalladas := palabras_prohibidas.filter fun w => contiene respuestaBaja w
  let e5 := prohibidasHalladas.map fun w =>
    "FAQ" ++ toString i ++ ": Contiene palabra vaga '" ++ w ++ "'"
  let p5 : Int := p4 - prohibidasHalladas.length
  let datos := tieneDatosEspecificos respuestaBaja.data
  let p6 : Int := if datos then p5 + 2 else p5
  let tecnicas := palabras_tecnicas.any fun w => contiene respuestaBaja w
  let p7 : Int := if tecnicas then p6 + 1 else p6
  let instrucciones := palabrasInstrucciones.any fun w => contiene respuestaBaja w
  let p8 : Int := if instrucciones then p7 + 1 else p7
  let beneficios := palabrasBeneficios.any fun w => contiene respuestaBaja w
  let p9 : Int := if beneficios then p8 + 1 else p8
  let num_oraciones := cuentaChar respuesta '.' + cuentaChar respuesta '!' + cuentaChar respuesta '?'
  let p10 : Int := if 3 ≤ num_oraciones then p9 + 1 else p9
  { puntuacion := p10
    errores := e1 ++ e2 ++ e3 ++ e4 ++ e5
    detalle :=
      { puntuacion := p10
        longitud_pregunta := palabras_pregunta
        longitud_respuesta := longitud_respuesta
        tiene_datos := datos
        tiene_tecnicas := tecnicas
        tiene_instrucciones := instrucciones
        tiene_beneficios := beneficios } }

/-- Attach the 1-based slot numbers `faq1..faq5` to a list. -/
def enumeraDesde (n : Nat) : List α → List (Nat × α)
  | [] => []
  | x :: xs => (n, x) :: enumeraDesde (n + 1) xs

/-- The five per-slot evaluations of a FAQ set (the loop of the scorer),
as a function of the effective text pairs only. -/
def evaluacionesDePares (pares : List (String × String)) : List EvalFaq :=
  (enumeraDesde 1 pares).map fun x => puntuar_faq x.1 x.2.1 x.2.2

/-- Aggregate metrics of the scorer. -/
structure Metricas where
  puntuacion_total : Int
  puntuacion_media : ℚ
  calidad_general : String
  detalle_faqs : List DetalleFaq
deriving DecidableEq

/-- The scorer's return value `(es_valido, errores, metricas)`. -/
structure Validacion where
  es_valido : Bool
  errores : List String
  metricas : Metricas
deriving DecidableEq

/-- The scorer on the effective pairs: violations concatenated in slot
order, total and mean score, quality tier, and the
`es_valido = (len(errores) == 0 and promedio >= 5)` verdict. -/
def validarPares (pares : List (String × String)) : Validacion :=
  let evaluaciones := evaluacionesDePares pares
  let errores := (evaluaciones.map EvalFaq.errores).flatten
  let total := (evaluaciones.map EvalFaq.puntuacion).sum
  let media : ℚ := Rat.divInt total 5
  let calidad : String :=
    if (8:ℚ) ≤ media then "EXCELENTE"
    else if (6:ℚ) ≤ media then "BUENA"
    else if (4:ℚ) ≤ media then "ACEPTABLE"
    else "INSUFICIENTE"
  { es_valido := errores.isEmpty && decide ((5:ℚ) ≤ media)
    errores := errores
    metricas :=
      { puntuacion_total := total
        puntuacion_media := media
        calidad_general := calidad
        detalle_faqs := evaluaciones.map EvalFaq.detalle } }

/-- `validar_calidad_faqs_mejorada` of the source. -/
def validar_calidad_faqs_mejorada (faqs : FaqSet) : Validacion :=
  validarPares (paresEfectivos faqs)

/-! ### JSON parsing (`json.loads`) and response handling -/

/-- JSON values, as produced by `json.loads`.  Numbers keep their source
text: the program never uses a numeric value from the response (any
non-string `pregunta`/`respuesta` makes the scorer raise, which consumes
the attempt). -/
inductive JVal where
  | jnull
  | jbool (b : Bool)
  | jnum (texto : String)
  | jstr (s : String)
  | jarr (elems : List JVal)
  | jobj (campos : List (String × JVal))

/-- JSON whitespace. -/
def jEsEspacio (c : Char) : Bool := c = ' ' || c = '\t' || c = '\n' || c = '\r'

/-- Skip JSON whitespace. -/
def jSaltaEspacios : List Char → List Char
  | [] => []
  | c :: cs => if jEsEspacio c then jSaltaEspacios cs else c :: cs

/-- Hexadecimal digit value. -/
def jHex (c : Char) : Option Nat :=
  if c.isDigit then some (c.toNat - 48)
  else if 'a' ≤ c ∧ c ≤ 'f' then some (c.toNat - 87)
  else if 'A' ≤ c ∧ c ≤ 'F' then some (c.toNat - 55)
  else none

/-- Parse the body of a JSON string after the opening quote; strict mode:
raw control characters and unknown escapes are rejected. -/
def jCadena : List Char → Option (List Char × List Char)
  | [] => none
  | '"' :: cs => some ([], cs)
  | '\\' :: e :: cs =>
    match e with
    | '"' => (jCadena cs).map fun r => ('"' :: r.1, r.2)
    | '\\' => (jCadena cs).map fun r => ('\\' :: r.1, r.2)
    | '/' => (jCadena cs).map fun r => ('/' :: r.1, r.2)
    | 'b' => (jCadena cs).map fun r => ('\x08' :: r.1, r.2)
    | 'f' => (jCadena cs).map fun r => ('\x0c' :: r.1, r.2)
    | 'n' => (jCadena cs).map fun r => ('\n' :: r.1, r.2)
    | 'r' => (jCadena cs).map fun r => ('\r' :: r.1, r.2)
    | 't' => (jCadena cs).map fun r => ('\t' :: r.1, r.2)
    | 'u' =>
      match cs with
      | h1 :: h2 :: h3 :: h4 :: cs' =>
        match jHex h1, jHex h2, jHex h3, jHex h4 with
        | some a, some b, some c, some d =>
          (jCadena cs').map fun r =>
            (Char.ofNat (((a * 16 + b) * 16 + c) * 16 + d) :: r.1, r.2)
        | _, _, _, _ => none
      | _ => none
    | _ => none
  | c :: cs =>
    if c.toNat < 32 then none
    else (jCadena cs).map fun r => (c :: r.1, r.2)

/-- Parse a JSON number starting at the current position (grammar
`-?(0|[1-9][0-9]*)(\.[0-9]+)?([eE][+-]?[0-9]+)?`), returning its text. -/
def jNumero (cs : List Char) : Option (List Char × List Char) :=
  let (signo, r0) : List Char × List Char :=
    match cs with
    | '-' :: r => (['-'], r)
    | r => ([], r)
  match r0 with
  | c :: _ =>
    if ¬ c.isDigit then none
    else
      let entero := r0.takeWhile Char.isDigit
      let r1 := r0.dropWhile Char.isDigit
      if entero.length > 1 ∧ entero.headI = '0' then none
      else
        let (frac, r2) : List Char × List Char :=
          match r1 with
          | '.' :: r =>
            let ds := r.takeWhile Char.isDigit
            if ds.isEmpty then ([], '.' :: r)
            else ('.' :: ds, r.dropWhile Char.isDigit)
          | r => ([], r)
        if r1 ≠ r2 ∨ frac.isEmpty then
          match frac, r1 with
          | [], '.' :: _ => none
          | _, _ =>
            let (expo, r3) : List Char × List Char :=
              match r2 with
              | e :: resto =>
                if e = 'e' ∨ e = 'E' then
                  let (se, resto') : List Char × List Char :=
                    match resto with
                    | '+' :: t => (['+'], t)
                    | '-' :: t => (['-'], t)
                    | t => ([], t)
                  let ds := resto'.takeWhile Char.isDigit
                  if ds.isEmpty then ([], e :: resto)
                  else (e :: se ++ ds, resto'.dropWhile Char.isDigit)
                else ([], e :: resto)
              | [] => ([], [])
            some (signo ++ entero ++ frac ++ expo, r3)
        else none
  | [] => none

mutual
/-- Parse one JSON value (leading whitespace allowed), with fuel. -/
def jValor : Nat → List Char → Option (JVal × List Char)
  | 0, _ => none
  | fuel + 1, cs =>
    match jSaltaEspacios cs with
    | [] => none
    | c :: cs' =>
      if c = '"' then (jCadena cs').map fun r => (.jstr ⟨r.1⟩, r.2)
      else if c = '\x7b' then
        match jSaltaEspacios cs' with
        | '\x7d' :: resto => some (.jobj [], resto)
        | resto => (jMiembros fuel resto).map fun r => (.jobj r.1, r.2)
      else if c = '[' then
        match jSaltaEspacios cs' with
        | ']' :: resto => some (.jarr [], resto)
        | resto => (jElementos fuel resto).map fun r => (.jarr r.1, r.2)
      else if c = 't' then
        if ['r','u','e'].isPrefixOf cs' then some (.jbool true, cs'.drop 3) else none
      else if c = 'f' then
        if ['a','l','s','e'].isPrefixOf cs' then some (.jbool false, cs'.drop 4) else none
      else if c = 'n' then
        if ['u','l','l'].isPrefixOf cs' then some (.jnull, cs'.drop 3) else none
      else if c = 'N' then
        if ['a','N'].isPrefixOf cs' then some (.jnum "nan", cs'.drop 2) else none
      else if c = 'I' then
        if ['n','f','i','n','i','t','y'].isPrefixOf cs' then some (.jnum "inf", cs'.drop 7)
        else none
      else if c = '-' ∧ cs'.headI = 'I' then
        if ['I','n','f','i','n','i','t','y'].isPrefixOf cs' then some (.jnum "-inf", cs'.drop 8)
        else none
      else
        (jNumero (c :: cs')).map fun r => (.jnum ⟨r.1⟩, r.2)

/-- Parse the members of an object, positioned at the first key. -/
def jMiembros : Nat → List Char → Option (List (String × JVal) × List Char)
  | 0, _ => none
  | fuel + 1, cs =>
    match jSaltaEspacios cs with
    | '"' :: cs' =>
      match jCadena cs' with
      | none => none
      | some (clave, r1) =>
        match jSaltaEspacios r1 with
        | ':' :: r2 =>
          match jValor fuel r2 with
          | none => none
          | some (v, r3) =>
            match jSaltaEspacios r3 with
            | ',' :: r4 =>
              (jMiembros fuel r4).map fun r => ((⟨clave⟩, v) :: r.1, r.2)
            | '\x7d' :: r4 => some ([(⟨clave⟩, v)], r4)
            | _ => none
        | _ => none
    | _ => none

/-- Parse the elements of an array, positioned at the first element. -/
def jElementos : Nat → List Char → Option (List JVal × List Char)
  | 0, _ => none
  | fuel + 1, cs =>
    match jValor fuel cs with
    | none => none
    | some (v, r1) =>
      match jSaltaEspacios r1 with
      | ',' :: r2 => (jElementos fuel r2).map fun r => (v :: r.1, r.2)
      | ']' :: r2 => some ([v], r2)
      | _ => none
end

/-- `json.loads`: parse a complete JSON document (trailing whitespace
allowed, anything else rejected). -/
def jsonLoads (s : String) : Option JVal :=
  match jValor (s.data.length + 2) s.data with
  | some (v, resto) => if jSaltaEspacios resto = [] then some v else none
  | none => none

/-- Python `dict.get` on a parsed object: last binding of a key wins
(as `json.loads` keeps the last duplicate). -/
def jCampo (campos : List (String × JVal)) (clave : String) : Option JVal :=
  (campos.reverse.find? fun kv => kv.1 = clave).map fun kv => kv.2

/-- Read `faq.get(k, '')` where the scorer needs a string: `some none`
when the key is absent (the scorer's `''` default), `some (some s)` for a
string, `none` when the value has another type (the scorer raises on it,
consuming the attempt). -/
def jCampoTexto (campos : List (String × JVal)) (clave : String) : Option (Option String) :=
  match jCampo campos clave with
  | none => some none
  | some (JVal.jstr s) => some (some s)
  | some _ => none

/-- Read one `faqs.get('faqN', {})` entry.  A missing key is the empty
default; a non-object value makes the scorer raise (attempt consumed). -/
def jLeerPar (campos : List (String × JVal)) (clave : String) : Option (Option FaqPar) :=
  match jCampo campos clave with
  | none => some none
  | some (JVal.jobj fl) =>
    match jCampoTexto fl "pregunta", jCampoTexto fl "respuesta" with
    | some q, some r => some (some ⟨q, r⟩)
    | _, _ => none
  | some _ => none

/-- Turn a parsed JSON document into the scorer's view of the five
`faq1..faq5` entries; `none` models the exceptions the scorer raises on a
non-dict document or non-conforming entries (all caught by the attempt's
`try`, consuming the attempt). -/
def jsonAFaqs (j : JVal) : Option FaqSet :=
  match j with
  | JVal.jobj campos => do
    let p1 ← jLeerPar campos "faq1"
    let p2 ← jLeerPar campos "faq2"
    let p3 ← jLeerPar campos "faq3"
    let p4 ← jLeerPar campos "faq4"
    let p5 ← jLeerPar campos "faq5"
    pure ⟨p1, p2, p3, p4, p5⟩
  | _ => none

/-- The code-fence stripping of lines 536–540: strip whitespace, drop a
leading `'```json'` (7 characters) when present, then drop a trailing
`'```'` when present. -/
def stripFence (respuesta : String) : String :=
  let s := pyRecorta respuesta
  let s1 := if pyEmpiezaCon s "```json" then pyDesde s 7 else s
  if pyTerminaCon s1 "```" then pySinUltimos s1 3 else s1

/-- Parse a fence-stripped candidate document into a FAQ set. -/
def faqsDesdeJson (s : String) : Option FaqSet := (jsonLoads s).bind jsonAFaqs

/-- Process one raw response text: fence stripping followed by
`json.loads` and the scorer's shape requirements.  `none` is a parse
failure that consumes the attempt. -/
def parsearRespuesta (crudo : String) : Option FaqSet := faqsDesdeJson (stripFence crudo)

/-! ### The Retry Controller (`generar_faqs_con_reintentos_mejorado`) -/

/-- What one generation attempt yielded before scoring: an API error, or
a raw response text. -/
inductive IntentoCrudo where
  | apiError
  | respuesta (texto : String)
deriving DecidableEq

/-- The scorer-level outcome of one attempt: `none` when the API call or
the parse failed (attempt consumed), `some fs` when scoring ran. -/
def intentoDeCrudo : IntentoCrudo → Option FaqSet
  | .apiError => none
  | .respuesta s => parsearRespuesta s

/-- The loop state of the controller: `mejor_resultado` and
`mejor_puntuacion` (initially `None` and `0`). -/
structure MejorRegistro where
  faqs : FaqSet
  metricas : Metricas
  intento : Nat
deriving DecidableEq

/-- Mutable state of the retry loop. -/
structure EstadoBucle where
  mejor : Option MejorRegistro
  mejorPuntuacion : ℚ
deriving DecidableEq

/-- The early-stop test of line 563:
`es_valido and metricas['calidad_general'] in ['EXCELENTE', 'BUENA']`. -/
def esPaseTemprano (v : Validacion) : Bool :=
  v.es_valido && (v.metricas.calidad_general = "EXCELENTE"
    || v.metricas.calidad_general = "BUENA")

/-- The `for intento in range(max_intentos)` loop of lines 505–579 over
the attempt outcomes, starting at attempt number `n` (1-based for the
stored `intento` field).  A parse/API failure leaves the state unchanged;
a scored attempt replaces Best-So-Far when its mean is strictly greater,
and the loop `break`s on an early pass. -/
def bucleIntentos : List (Option FaqSet) → Nat → EstadoBucle → EstadoBucle
  | [], _, st => st
  | none :: resto, n, st => bucleIntentos resto (n + 1) st
  | some fs :: resto, n, st =>
    let v := validar_calidad_faqs_mejorada fs
    let st' : EstadoBucle :=
      if st.mejorPuntuacion < v.metricas.puntuacion_media then
        ⟨some ⟨fs, v.metricas, n⟩, v.metricas.puntuacion_media⟩
      else st
    if esPaseTemprano v then st' else bucleIntentos resto (n + 1) st'

/-- The number of attempts the loop actually performs before stopping
(at most the length of the attempt list, i.e. `max_intentos`). -/
def intentosUsados : List (Option FaqSet) → Nat
  | [] => 0
  | none :: resto => 1 + intentosUsados resto
  | some fs :: resto =>
    if esPaseTemprano (validar_calidad_faqs_mejorada fs) then 1
    else 1 + intentosUsados resto

/-- The successive values of `mejor_puntuacion` after each performed
attempt, starting from `mp` (mirrors `bucleIntentos` step for step). -/
def trazaMejor : List (Option FaqSet) → ℚ → List ℚ
  | [], _ => []
  | none :: resto, mp => mp :: trazaMejor resto mp
  | some fs :: resto, mp =>
    let v := validar_calidad_faqs_mejorada fs
    let mp' := if mp < v.metricas.puntuacion_media then v.metricas.puntuacion_media else mp
    if esPaseTemprano v then [mp'] else mp' :: trazaMejor resto mp'

/-- Last element of a trace, or the starting value for an empty trace. -/
def ultimoODef (d : ℚ) : List ℚ → ℚ
  | [] => d
  | x :: xs => ultimoODef x xs

/-- Extract the five `(pregunta, respuesta)` pairs the final-result
builder reads with direct indexing (`faqs['faqN']['pregunta']`); `none`
models the uncaught `KeyError` when any key is missing. -/
def extraerPares (fs : FaqSet) : Option (List (String × String)) := do
  let f1 ← fs.faq1
  let f2 ← fs.faq2
  let f3 ← fs.faq3
  let f4 ← fs.faq4
  let f5 ← fs.faq5
  let lee : FaqPar → Option (String × String) := fun fp => do
    let q ← fp.pregunta
    let r ← fp.respuesta
    pure (q, r)
  let x1 ← lee f1
  let x2 ← lee f2
  let x3 ← lee f3
  let x4 ← lee f4
  let x5 ← lee f5
  pure [x1, x2, x3, x4, x5]

/-- The result dictionary assembled at lines 587–603 (bookkeeping fields
included as structure fields). -/
structure Resultado where
  handle : String
  pares : List (String × String)
  calidad : String
  intentos : Nat
  puntuacion : ℚ
deriving DecidableEq

/-- Build the final result from Best-So-Far; `none` models the uncaught
`KeyError` of the direct dictionary indexing. -/
def construirResultado (producto : Producto) (b : MejorRegistro) : Option Resultado :=
  (extraerPares b.faqs).map fun xs =>
    { handle := pObtenerD producto "Handle" ""
      pares := xs
      calidad := b.metricas.calidad_general
      intentos := b.intento
      puntuacion := b.metricas.puntuacion_media }

/-- How one call of `generar_faqs_con_reintentos_mejorado` ends. -/
inductive DesenlaceBucle where
  | resultado (r : Resultado)
  | sinResultado
  | excepcion
deriving DecidableEq

/-- `generar_faqs_con_reintentos_mejorado` over the scorer-level attempt
outcomes: the initial deep analysis (which can raise on a bad price), the
description write-back, the retry loop, and the final result assembly.
`sinResultado` is the `return None` path; `excepcion` is an uncaught
exception escaping the function. -/
def generar_faqs_con_reintentos_mejorado (producto : Producto)
    (intentos : List (Option FaqSet)) : DesenlaceBucle :=
  match analizar_producto_profundo producto with
  | none => DesenlaceBucle.excepcion
  | some _ =>
    let producto' := actualizar_descripcion producto
    let final := bucleIntentos intentos 1 ⟨none, 0⟩
    match final.mejor with
    | none => DesenlaceBucle.sinResultado
    | some b =>
      match construirResultado producto' b with
      | some r => DesenlaceBucle.resultado r
      | none => DesenlaceBucle.excepcion

/-- The controller applied to three raw attempt outcomes (the
`max_intentos = 3` call of the batch driver). -/
def generarDesdeCrudos (producto : Producto) (crudos : List IntentoCrudo) : DesenlaceBucle :=
  generar_faqs_con_reintentos_mejorado producto (crudos.map intentoDeCrudo)

/-! ### Concrete data used when settling the claims -/

/-- The JSON text `{}`: a valid document with no `faq` keys. -/
def jsonVacioStr : String := "\x7b\x7d"

/-- A well-formed pair whose answer consists of vague banned words. -/
def parCorrupto : FaqPar := ⟨some "", some "cosa algo etc"⟩

/-- A complete FAQ set scoring -2 per pair (mean -2 < 0). -/
def fsCorrupto : FaqSet :=
  ⟨some parCorrupto, some parCorrupto, some parCorrupto, some parCorrupto, some parCorrupto⟩

/-- The JSON document that parses to `fsCorrupto`. -/
def jsonCorruptoStr : String :=
  "\x7b\"faq1\": \x7b\"pregunta\": \"\", \"respuesta\": \"cosa algo etc\"\x7d, "
    ++ "\"faq2\": \x7b\"pregunta\": \"\", \"respuesta\": \"cosa algo etc\"\x7d, "
    ++ "\"faq3\": \x7b\"pregunta\": \"\", \"respuesta\": \"cosa algo etc\"\x7d, "
    ++ "\"faq4\": \x7b\"pregunta\": \"\", \"respuesta\": \"cosa algo etc\"\x7d, "
    ++ "\"faq5\": \x7b\"pregunta\": \"\", \"respuesta\": \"cosa algo etc\"\x7d\x7d"

/-- A complete FAQ set of empty texts: each pair scores 1 (mean 1 > 0),
with violations, so it never passes early. -/
def fsNeutro : FaqSet :=
  ⟨some ⟨some "", some ""⟩, some ⟨some "", some ""⟩, some ⟨some "", some ""⟩,
   some ⟨some "", some ""⟩, some ⟨some "", some ""⟩⟩

/-- An all-absent FAQ set: the scorer sees the same effective pairs as
`fsNeutro`, but the final-result assembly would raise on it. -/
def fsAusente : FaqSet := ⟨none, none, none, none, none⟩

/-- A complete five-entry JSON document of one-letter texts. -/
def jsonBuenoStr : String :=
  "\x7b\"faq1\": \x7b\"pregunta\": \"a\", \"respuesta\": \"b\"\x7d, "
    ++ "\"faq2\": \x7b\"pregunta\": \"a\", \"respuesta\": \"b\"\x7d, "
    ++ "\"faq3\": \x7b\"pregunta\": \"a\", \"respuesta\": \"b\"\x7d, "
    ++ "\"faq4\": \x7b\"pregunta\": \"a\", \"respuesta\": \"b\"\x7d, "
    ++ "\"faq5\": \x7b\"pregunta\": \"a\", \"respuesta\": \"b\"\x7d\x7d"

/-- A Feature Profile with ingredient evidence only. -/
def analisisEjemplo : Analisis :=
  { tiene_ingredientes := true
    es_tratamiento := false
    menciona_edad := false
    tipo_producto := "serum"
    precio_alto := false
    marca_premium := false }

/-- One concrete outcome of the random choices of
`seleccionar_categorias_aleatorias` for a product whose only priority
category is `ingredientes`. -/
def seleccionEjemplo : SeleccionCategorias [] analisisEjemplo where
  seleccionadas := ["ingredientes"]
  adicionales := ["aplicacion", "compatibilidad", "resultados", "diferenciacion"]
  finales := ["aplicacion", "ingredientes", "compatibilidad", "resultados", "diferenciacion"]
  muestra_sel := by decide
  largo_sel := by decide
  muestra_ad := by decide
  largo_ad := by decide
  barajadas := by decide

/-! ### Generic lemmas about the embedded code -/

theorem cadena_traza (intentos : List (Option FaqSet)) (q : ℚ) :
    List.Chain (fun a b => a ≤ b) q (trazaMejor intentos q) := by
  induction intentos generalizing q with
  | nil => exact List.Chain.nil
  | cons o resto ih =>
    cases o with
    | none => exact List.Chain.cons le_rfl (ih q)
    | some fs =>
      simp only [trazaMejor]
      by_cases h : q < (validar_calidad_faqs_mejorada fs).metricas.puntuacion_media
      · simp only [if_pos h]
        by_cases hp : esPaseTemprano (validar_calidad_faqs_mejorada fs) = true
        · simp only [if_pos hp]
          exact List.Chain.cons (le_of_lt h) List.Chain.nil
        · simp only [if_neg hp]
          exact List.Chain.cons (le_of_lt h) (ih _)
      · simp only [if_neg h]
        by_cases hp : esPaseTemprano (validar_calidad_faqs_mejorada fs) = true
        · simp only [if_pos hp]
          exact List.Chain.cons le_rfl List.Chain.nil
        · simp only [if_neg hp]
          exact List.Chain.cons le_rfl (ih _)

theorem bucle_puntuacion_eq_traza (intentos : List (Option FaqSet)) (q : ℚ)
    (n : Nat) (m : Option MejorRegistro) :
    (bucleIntentos intentos n ⟨m, q⟩).mejorPuntuacion
      = ultimoODef q (trazaMejor intentos q) := by
  induction intentos generalizing q n m with
  | nil => rfl
  | cons o resto ih =>
    cases o with
    | none =>
      simp only [bucleIntentos, trazaMejor, ultimoODef]
      exact ih q (n + 1) m
    | some fs =>
      simp only [bucleIntentos, trazaMejor]
      by_cases h : q < (validar_calidad_faqs_mejorada fs).metricas.puntuacion_media
      · simp only [if_pos h]
        by_cases hp : esPaseTemprano (validar_calidad_faqs_mejorada fs) = true
        · simp only [if_pos hp]; rfl
        · simp only [if_neg hp, ultimoODef]
          exact ih _ (n + 1) _
      · simp only [if_neg h]
        by_cases hp : esPaseTemprano (validar_calidad_faqs_mejorada fs) = true
        · simp only [if_pos hp]; rfl
        · simp only [if_neg hp, ultimoODef]
          exact ih _ (n + 1) _

theorem esPase_cinco_le_media (fs : FaqSet)
    (h : esPaseTemprano (validar_calidad_faqs_mejorada fs) = true) :
    (5:ℚ) ≤ (validar_calidad_faqs_mejorada fs).metricas.puntuacion_media := by
  simp only [esPaseTemprano, validar_calidad_faqs_mejorada, validarPares,
    Bool.and_eq_true, Bool.or_eq_true, decide_eq_true_eq] at h ⊢
  exact h.1.2

theorem bucle_mejor_persiste (intentos : List (Option FaqSet)) (n : Nat)
    (st : EstadoBucle) (h : st.mejor.isSome = true) :
    (bucleIntentos intentos n st).mejor.isSome = true := by
  induction intentos generalizing n st with
  | nil => exact h
  | cons o resto ih =>
    cases o with
    | none => exact ih (n + 1) st h
    | some fs =>
      simp only [bucleIntentos]
      by_cases hc : st.mejorPuntuacion
          < (validar_calidad_faqs_mejorada fs).metricas.puntuacion_media
      · simp only [if_pos hc]
        by_cases hp : esPaseTemprano (validar_calidad_faqs_mejorada fs) = true
        · simp only [if_pos hp, Option.isSome_some]
        · simp only [if_neg hp]
          exact ih (n + 1) _ (by simp)
      · simp only [if_neg hc]
        by_cases hp : esPaseTemprano (validar_calidad_faqs_mejorada fs) = true
        · simp only [if_pos hp]; exact h
        · simp only [if_neg hp]
          exact ih (n + 1) st h

theorem bucle_mejor_none_estado (intentos : List (Option FaqSet)) (n : Nat)
    (st : EstadoBucle) (h : (bucleIntentos intentos n st).mejor = none) :
    bucleIntentos intentos n st = st := by
  induction intentos generalizing n st with
  | nil => rfl
  | cons o resto ih =>
    cases o with
    | none => exact ih (n + 1) st h
    | some fs =>
      simp only [bucleIntentos] at h ⊢
      by_cases hc : st.mejorPuntuacion
          < (validar_calidad_faqs_mejorada fs).metricas.puntuacion_media
      · simp only [if_pos hc] at h ⊢
        by_cases hp : esPaseTemprano (validar_calidad_faqs_mejorada fs) = true
        · simp only [if_pos hp] at h
          exact absurd h (by simp)
        · simp only [if_neg hp] at h ⊢
          have := bucle_mejor_persiste resto (n + 1)
            ⟨some ⟨fs, (validar_calidad_faqs_mejorada fs).metricas, n⟩,
              (validar_calidad_faqs_mejorada fs).metricas.puntuacion_media⟩ (by simp)
          rw [h] at this
          simp at this
      · simp only [if_neg hc] at h ⊢
        by_cases hp : esPaseTemprano (validar_calidad_faqs_mejorada fs) = true
        · simp only [if_pos hp] at h ⊢
        · simp only [if_neg hp] at h ⊢
          exact ih (n + 1) st h

theorem bucleIntentos_nil (n : Nat) (st : EstadoBucle) : bucleIntentos [] n st = st := rfl

theorem bucleIntentos_none (resto : List (Option FaqSet)) (n : Nat) (st : EstadoBucle) :
    bucleIntentos (none :: resto) n st = bucleIntentos resto (n + 1) st := rfl

/-- Step equation for a scored attempt that does not trigger the early
pass: the loop continues with the possibly-updated state. -/
theorem bucleIntentos_some_sigue (g : FaqSet) (resto : List (Option FaqSet))
    (n : Nat) (st : EstadoBucle)
    (hpg : esPaseTemprano (validar_calidad_faqs_mejorada g) = false) :
    bucleIntentos (some g :: resto) n st = bucleIntentos resto (n + 1)
      (if st.mejorPuntuacion < (validar_calidad_faqs_mejorada g).metricas.puntuacion_media
       then ⟨some ⟨g, (validar_calidad_faqs_mejorada g).metricas, n⟩,
         (validar_calidad_faqs_mejorada g).metricas.puntuacion_media⟩
       else st) := by
  simp [bucleIntentos, hpg]

/-- Step equation for a scored attempt that triggers the early pass. -/
theorem bucleIntentos_some_pasa (g : FaqSet) (resto : List (Option FaqSet))
    (n : Nat) (st : EstadoBucle)
    (hpg : esPaseTemprano (validar_calidad_faqs_mejorada g) = true) :
    bucleIntentos (some g :: resto) n st =
      (if st.mejorPuntuacion < (validar_calidad_faqs_mejorada g).metricas.puntuacion_media
       then ⟨some ⟨g, (validar_calidad_faqs_mejorada g).metricas, n⟩,
         (validar_calidad_faqs_mejorada g).metricas.puntuacion_media⟩
       else st) := by
  simp [bucleIntentos, hpg]

theorem bucle_mp_crece (intentos : List (Option FaqSet)) (n : Nat) (st : EstadoBucle) :
    st.mejorPuntuacion ≤ (bucleIntentos intentos n st).mejorPuntuacion := by
  induction intentos generalizing n st with
  | nil => exact le_rfl
  | cons o resto ih =>
    cases o with
    | none => exact ih (n + 1) st
    | some g =>
      by_cases hpg : esPaseTemprano (validar_calidad_faqs_mejorada g) = true
      · rw [bucleIntentos_some_pasa g resto n st hpg]
        by_cases hc : st.mejorPuntuacion
            < (validar_calidad_faqs_mejorada g).metricas.puntuacion_media
        · simp only [if_pos hc]; exact le_of_lt hc
        · simp only [if_neg hc]
          exact le_rfl
      · rw [bucleIntentos_some_sigue g resto n st (Bool.not_eq_true _ ▸ hpg)]
        by_cases hc : st.mejorPuntuacion
            < (validar_calidad_faqs_mejorada g).metricas.puntuacion_media
        · simp only [if_pos hc]
          exact le_trans (le_of_lt hc) (ih (n + 1) _)
        · simp only [if_neg hc]
          exact ih (n + 1) st

theorem bucle_media_domina (intentos : List (Option FaqSet)) (n : Nat) (st : EstadoBucle)
    (hnp : ∀ fs : FaqSet, some fs ∈ intentos →
      esPaseTemprano (validar_calidad_faqs_mejorada fs) = false) :
    ∀ fs : FaqSet, some fs ∈ intentos →
      (validar_calidad_faqs_mejorada fs).metricas.puntuacion_media
        ≤ (bucleIntentos intentos n st).mejorPuntuacion := by
  induction intentos generalizing n st with
  | nil => intro fs hfs; simp at hfs
  | cons o resto ih =>
    cases o with
    | none =>
      intro fs hfs
      rw [bucleIntentos_none]
      have hfs' : some fs ∈ resto := by
        rcases List.mem_cons.mp hfs with h1 | h2
        · exact absurd h1 (by simp)
        · exact h2
      exact ih (n + 1) st (fun h hh => hnp h (List.mem_cons_of_mem _ hh)) fs hfs'
    | some g =>
      have hpg : esPaseTemprano (validar_calidad_faqs_mejorada g) = false :=
        hnp g (List.mem_cons_self _ _)
      intro fs hfs
      rw [bucleIntentos_some_sigue g resto n st hpg]
      rcases List.mem_cons.mp hfs with hfg | hresto
      · have hfg' : fs = g := by simpa using hfg
        subst hfg'
        refine le_trans ?_ (bucle_mp_crece resto (n + 1) _)
        by_cases hc : st.mejorPuntuacion
            < (validar_calidad_faqs_mejorada fs).metricas.puntuacion_media
        · simp only [if_pos hc]
          exact le_rfl
        · simp only [if_neg hc]; exact le_of_not_lt hc
      · exact ih (n + 1) _ (fun h hh => hnp h (List.mem_cons_of_mem _ hh)) fs hresto

theorem bucle_mejor_origen (intentos : List (Option FaqSet)) (n : Nat) (st : EstadoBucle)
    (b : MejorRegistro) (h : (bucleIntentos intentos n st).mejor = some b) :
    st.mejor = some b ∨ some b.faqs ∈ intentos := by
  induction intentos generalizing n st with
  | nil => exact Or.inl h
  | cons o resto ih =>
    cases o with
    | none =>
      rw [bucleIntentos_none] at h
      rcases ih (n + 1) st h with h1 | h2
      · exact Or.inl h1
      · exact Or.inr (List.mem_cons_of_mem _ h2)
    | some g =>
      by_cases hpg : esPaseTemprano (validar_calidad_faqs_mejorada g) = true
      · rw [bucleIntentos_some_pasa g resto n st hpg] at h
        by_cases hc : st.mejorPuntuacion
            < (validar_calidad_faqs_mejorada g).metricas.puntuacion_media
        · simp only [if_pos hc, Option.some.injEq] at h
          refine Or.inr ?_
          rw [← h]
          exact List.mem_cons_self _ _
        · simp only [if_neg hc] at h
          exact Or.inl h
      · rw [bucleIntentos_some_sigue g resto n st (Bool.not_eq_true _ ▸ hpg)] at h
        by_cases hc : st.mejorPuntuacion
            < (validar_calidad_faqs_mejorada g).metricas.puntuacion_media
        · simp only [if_pos hc] at h
          rcases ih (n + 1) _ h with h1 | h2
          · simp only [Option.some.injEq] at h1
            refine Or.inr ?_
            rw [← h1]
            exact List.mem_cons_self _ _
          · exact Or.inr (List.mem_cons_of_mem _ h2)
        · simp only [if_neg hc] at h
          rcases ih (n + 1) st h with h1 | h2
          · exact Or.inl h1
          · exact Or.inr (List.mem_cons_of_mem _ h2)

theorem bucle_todos_bajos (intentos : List (Option FaqSet)) (n : Nat)
    (m : Option MejorRegistro)
    (hb : ∀ fs : FaqSet, some fs ∈ intentos →
      (validar_calidad_faqs_mejorada fs).metricas.puntuacion_media ≤ 0) :
    bucleIntentos intentos n ⟨m, 0⟩ = ⟨m, 0⟩ := by
  induction intentos generalizing n with
  | nil => rfl
  | cons o resto ih =>
    cases o with
    | none =>
      rw [bucleIntentos_none]
      exact ih (n + 1) (fun fs hfs => hb fs (List.mem_cons_of_mem _ hfs))
    | some g =>
      have hg : (validar_calidad_faqs_mejorada g).metricas.puntuacion_media ≤ 0 :=
        hb g (List.mem_cons_self _ _)
      have hpg : esPaseTemprano (validar_calidad_faqs_mejorada g) = false := by
        by_contra hx
        have h5 := esPase_cinco_le_media g (by simpa using hx)
        linarith
      rw [bucleIntentos_some_sigue g resto n _ hpg]
      have hc : ¬ (EstadoBucle.mejorPuntuacion ⟨m, 0⟩
          < (validar_calidad_faqs_mejorada g).metricas.puntuacion_media) := by
        simp only [EstadoBucle.mejorPuntuacion]
        exact not_lt.mpr hg
      rw [if_neg hc]
      exact ih (n + 1) (fun fs hfs => hb fs (List.mem_cons_of_mem _ hfs))

theorem validarPares_media (pares : List (String × String)) :
    (validarPares pares).metricas.puntuacion_media
      = Rat.divInt ((evaluacionesDePares pares).map EvalFaq.puntuacion).sum 5 := rfl

theorem validarPares_detalle (pares : List (String × String)) :
    (validarPares pares).metricas.detalle_faqs
      = (evaluacionesDePares pares).map EvalFaq.detalle := rfl

theorem validarPares_errores (pares : List (String × String)) :
    (validarPares pares).errores
      = ((evaluacionesDePares pares).map EvalFaq.errores).flatten := rfl

theorem validarPares_valido (pares : List (String × String)) :
    (validarPares pares).es_valido
      = ((validarPares pares).errores.isEmpty
          && decide ((5:ℚ) ≤ (validarPares pares).metricas.puntuacion_media)) := rfl

theorem validarPares_calidad (pares : List (String × String)) :
    (validarPares pares).metricas.calidad_general
      = (if (8:ℚ) ≤ (validarPares pares).metricas.puntuacion_media then "EXCELENTE"
         else if (6:ℚ) ≤ (validarPares pares).metricas.puntuacion_media then "BUENA"
         else if (4:ℚ) ≤ (validarPares pares).metricas.puntuacion_media then "ACEPTABLE"
         else "INSUFICIENTE") := rfl

theorem detalle_puntuacion_coincide (i : Nat) (pregunta respuesta : String) :
    (puntuar_faq i pregunta respuesta).detalle.puntuacion
      = (puntuar_faq i pregunta respuesta).puntuacion := rfl

theorem detalles_puntuaciones (pares : List (String × String)) :
    ((evaluacionesDePares pares).map EvalFaq.detalle).map DetalleFaq.puntuacion
      = (evaluacionesDePares pares).map EvalFaq.puntuacion := by
  rw [List.map_map]
  refine List.map_congr_left ?_
  intro e he
  unfold evaluacionesDePares at he
  obtain ⟨x, _, rfl⟩ := List.mem_map.mp he
  exact detalle_puntuacion_coincide x.1 x.2.1 x.2.2

/-! ### Claim theorems -/

/-- C4: within a single product's retry loop the retained Best-So-Far
mean score never decreases: the successive values of `mejor_puntuacion`
(one per performed attempt, as `trazaMejor` records them, starting from
the initial `0` or any `q`) form a chain under `≤`, and that trace is
exactly what the loop `bucleIntentos` computes (its final
`mejorPuntuacion` is the last trace entry). -/
theorem C4_mejor_puntuacion_monotona (intentos : List (Option FaqSet)) (q : ℚ) :
    List.Chain (fun a b => a ≤ b) q (trazaMejor intentos q)
    ∧ ∀ (n : Nat) (m : Option MejorRegistro),
        (bucleIntentos intentos n ⟨m, q⟩).mejorPuntuacion
          = ultimoODef q (trazaMejor intentos q) :=
  ⟨cadena_traza intentos q, fun n m => bucle_puntuacion_eq_traza intentos q n m⟩

/-- C5: the aggregate of the Quality Scorer is the sum of the five
per-pair scores divided by 5; the tier is EXCELENTE iff the mean is at
least 8, BUENA iff it is in [6, 8), ACEPTABLE iff in [4, 6) and
INSUFICIENTE otherwise; and the verdict `es_valido` holds iff the
violation list is empty and the mean is at least 5. -/
theorem C5_agregado_y_umbrales (fs : FaqSet) :
    ((validar_calidad_faqs_mejorada fs).metricas.detalle_faqs.length = 5
      ∧ (validar_calidad_faqs_mejorada fs).metricas.puntuacion_media
        = (((((validar_calidad_faqs_mejorada fs).metricas.detalle_faqs.map
              DetalleFaq.puntuacion).sum : Int) : ℚ)) / 5)
    ∧ ((validar_calidad_faqs_mejorada fs).metricas.calidad_general = "EXCELENTE"
        ↔ (8:ℚ) ≤ (validar_calidad_faqs_mejorada fs).metricas.puntuacion_media)
    ∧ ((validar_calidad_faqs_mejorada fs).metricas.calidad_general = "BUENA"
        ↔ (6:ℚ) ≤ (validar_calidad_faqs_mejorada fs).metricas.puntuacion_media
          ∧ (validar_calidad_faqs_mejorada fs).metricas.puntuacion_media < 8)
    ∧ ((validar_calidad_faqs_mejorada fs).metricas.calidad_general = "ACEPTABLE"
        ↔ (4:ℚ) ≤ (validar_calidad_faqs_mejorada fs).metricas.puntuacion_media
          ∧ (validar_calidad_faqs_mejorada fs).metricas.puntuacion_media < 6)
    ∧ ((validar_calidad_faqs_mejorada fs).metricas.calidad_general = "INSUFICIENTE"
        ↔ (validar_calidad_faqs_mejorada fs).metricas.puntuacion_media < 4)
    ∧ ((validar_calidad_faqs_mejorada fs).es_valido = true
        ↔ (validar_calidad_faqs_mejorada fs).errores = []
          ∧ (5:ℚ) ≤ (validar_calidad_faqs_mejorada fs).metricas.puntuacion_media) := by
  have hdef : validar_calidad_faqs_mejorada fs = validarPares (paresEfectivos fs) := rfl
  rw [hdef]
  constructor
  · constructor
    · rw [validarPares_detalle]
      simp [evaluacionesDePares, paresEfectivos, enumeraDesde]
    · rw [validarPares_media, validarPares_detalle, detalles_puntuaciones,
        Rat.divInt_eq_div]
      norm_num
  refine ⟨?_, ?_, ?_, ?_, ?_⟩
  · rw [validarPares_calidad]
    by_cases h8 : (8:ℚ) ≤ (validarPares (paresEfectivos fs)).metricas.puntuacion_media
    · simp [h8]
    · by_cases h6 : (6:ℚ) ≤ (validarPares (paresEfectivos fs)).metricas.puntuacion_media
      · simp [h8, h6]
      · by_cases h4 : (4:ℚ) ≤ (validarPares (paresEfectivos fs)).metricas.puntuacion_media
        · simp [h8, h6, h4]
        · simp [h8, h6, h4]
  · rw [validarPares_calidad]
    by_cases h8 : (8:ℚ) ≤ (validarPares (paresEfectivos fs)).metricas.puntuacion_media
    · simp only [if_pos h8]
      constructor
      · intro h; exact absurd h (by decide)
      · rintro ⟨-, hlt⟩; linarith
    · by_cases h6 : (6:ℚ) ≤ (validarPares (paresEfectivos fs)).metricas.puntuacion_media
      · simp only [if_neg h8, if_pos h6]
        constructor
        · intro _; exact ⟨h6, lt_of_not_le h8⟩
        · intro _; trivial
      · by_cases h4 : (4:ℚ) ≤ (validarPares (paresEfectivos fs)).metricas.puntuacion_media
        · simp only [if_neg h8, if_neg h6, if_pos h4]
          constructor
          · intro h; exact absurd h (by decide)
          · rintro ⟨hge, -⟩; exact absurd hge h6
        · simp only [if_neg h8, if_neg h6, if_neg h4]
          constructor
          · intro h; exact absurd h (by decide)
          · rintro ⟨hge, -⟩; exact absurd hge h6
  · rw [validarPares_calidad]
    by_cases h8 : (8:ℚ) ≤ (validarPares (paresEfectivos fs)).metricas.puntuacion_media
    · simp only [if_pos h8]
      constructor
      · intro h; exact absurd h (by decide)
      · rintro ⟨-, hlt⟩; linarith
    · by_cases h6 : (6:ℚ) ≤ (validarPares (paresEfectivos fs)).metricas.puntuacion_media
      · simp only [if_neg h8, if_pos h6]
        constructor
        · intro h; exact absurd h (by decide)
        · rintro ⟨-, hlt⟩; linarith
      · by_cases h4 : (4:ℚ) ≤ (validarPares (paresEfectivos fs)).metricas.puntuacion_media
        · simp only [if_neg h8, if_neg h6, if_pos h4]
          exact ⟨fun _ => ⟨h4, lt_of_not_le h6⟩, fun _ => trivial⟩
        · simp only [if_neg h8, if_neg h6, if_neg h4]
          constructor
          · intro h; exact absurd h (by decide)
          · rintro ⟨hge, -⟩; exact absurd hge h4
  · rw [validarPares_calidad]
    by_cases h8 : (8:ℚ) ≤ (validarPares (paresEfectivos fs)).metricas.puntuacion_media
    · simp only [if_pos h8]
      constructor
      · intro h; exact absurd h (by decide)
      · intro hlt; linarith
    · by_cases h6 : (6:ℚ) ≤ (validarPares (paresEfectivos fs)).metricas.puntuacion_media
      · simp only [if_neg h8, if_pos h6]
        constructor
        · intro h; exact absurd h (by decide)
        · intro hlt; linarith
      · by_cases h4 : (4:ℚ) ≤ (validarPares (paresEfectivos fs)).metricas.puntuacion_media
        · simp only [if_neg h8, if_neg h6, if_pos h4]
          constructor
          · intro h; exact absurd h (by decide)
          · intro hlt; linarith
        · simp only [if_neg h8, if_neg h6, if_neg h4]
          exact ⟨fun _ => lt_of_not_le h4, fun _ => trivial⟩
  · rw [validarPares_valido]
    simp only [Bool.and_eq_true, List.isEmpty_iff, decide_eq_true_eq]

/-- C6: the answer-length axis of the scorer records a too-short
violation and awards 0 band points below 150 characters, awards 3 band
points on [200, 300], awards 2 band points on [150, 200), and records a
too-long violation above 350 characters in addition to whatever band
points were earned. -/
theorem C6_eje_longitud (i : Nat) (pregunta respuesta : String) :
    (respuesta.length < 150 →
      puntosLongitudRespuesta respuesta.length = 0
      ∧ ("FAQ" ++ toString i ++ ": Respuesta muy corta (" ++ toString respuesta.length
          ++ " chars, mínimo 150)") ∈ (puntuar_faq i pregunta respuesta).errores)
    ∧ (200 ≤ respuesta.length → respuesta.length ≤ 300 →
        puntosLongitudRespuesta respuesta.length = 3)
    ∧ (150 ≤ respuesta.length → respuesta.length < 200 →
        puntosLongitudRespuesta respuesta.length = 2)
    ∧ (350 < respuesta.length →
        ("FAQ" ++ toString i ++ ": Respuesta muy larga (" ++ toString respuesta.length
          ++ " chars, máximo 350)") ∈ (puntuar_faq i pregunta respuesta).errores) := by
  refine ⟨fun h => ⟨?_, ?_⟩, fun h1 h2 => ?_, fun h1 h2 => ?_, fun h => ?_⟩
  · simp [puntosLongitudRespuesta, h]
  · simp only [puntuar_faq, List.mem_append]
    refine Or.inl (Or.inl (Or.inr ?_))
    simp [h]
  · have hno : ¬ respuesta.length < 150 := by omega
    simp [puntosLongitudRespuesta, hno, h1, h2]
  · have hno : ¬ respuesta.length < 150 := by omega
    have hno2 : ¬ (200 ≤ respuesta.length ∧ respuesta.length ≤ 300) := by omega
    simp [puntosLongitudRespuesta, hno, hno2, h1, h2]
  · simp only [puntuar_faq, List.mem_append]
    refine Or.inl (Or.inr ?_)
    simp [h]

set_option maxRecDepth 10000 in
/-- C6 witness: the four cases of `C6_eje_longitud` at concrete answer
lengths 13, 250, 180 and 400. -/
theorem C6_testigo :
    (puntosLongitudRespuesta ("cosa algo etc" : String).length = 0
      ∧ ("FAQ" ++ toString 1 ++ ": Respuesta muy corta ("
          ++ toString ("cosa algo etc" : String).length ++ " chars, mínimo 150)")
        ∈ (puntuar_faq 1 "" "cosa algo etc").errores)
    ∧ puntosLongitudRespuesta (String.mk (List.replicate 250 'a')).length = 3
    ∧ puntosLongitudRespuesta (String.mk (List.replicate 180 'a')).length = 2
    ∧ ("FAQ" ++ toString 2 ++ ": Respuesta muy larga ("
        ++ toString (String.mk (List.replicate 400 'a')).length ++ " chars, máximo 350)")
      ∈ (puntuar_faq 2 "" (String.mk (List.replicate 400 'a'))).errores :=
  ⟨(C6_eje_longitud 1 "" "cosa algo etc").1 (by decide),
   (C6_eje_longitud 0 "" (String.mk (List.replicate 250 'a'))).2.1 (by decide) (by decide),
   (C6_eje_longitud 0 "" (String.mk (List.replicate 180 'a'))).2.2.1 (by decide) (by decide),
   (C6_eje_longitud 2 "" (String.mk (List.replicate 400 'a'))).2.2.2 (by decide)⟩

theorem enumeraDesde_getElem (l : List α) (n i : Nat) :
    (enumeraDesde n l)[i]? = (l[i]?).map fun a => (n + i, a) := by
  induction l generalizing n i with
  | nil => simp [enumeraDesde]
  | cons x xs ih =>
    cases i with
    | zero => simp [enumeraDesde]
    | succ j =>
      simp only [enumeraDesde, List.getElem?_cons_succ]
      rw [ih (n + 1) j]
      have hsuma : n + 1 + j = n + (j + 1) := by omega
      rw [hsuma]

theorem evaluaciones_getElem (pares : List (String × String)) (i : Nat) :
    (evaluacionesDePares pares)[i]?
      = (pares[i]?).map fun par => puntuar_faq (1 + i) par.1 par.2 := by
  unfold evaluacionesDePares
  rw [List.getElem?_map, enumeraDesde_getElem]
  cases pares[i]? <;> rfl

/-- C9: the Quality Scorer is a deterministic function of the effective
question/answer texts alone: two FAQ sets with the same effective pairs
receive identical verdicts (same flag, violations, metrics and per-pair
detail) — in particular scoring the same set twice is idempotent — and
the per-slot evaluation depends only on that slot's pair. -/
theorem C9_determinismo (f g : FaqSet) (i : Nat) :
    (paresEfectivos f = paresEfectivos g →
      validar_calidad_faqs_mejorada f = validar_calidad_faqs_mejorada g)
    ∧ ((paresEfectivos f)[i]? = (paresEfectivos g)[i]? →
        (evaluacionesDePares (paresEfectivos f))[i]?
          = (evaluacionesDePares (paresEfectivos g))[i]?) := by
  constructor
  · intro h
    show validarPares (paresEfectivos f) = validarPares (paresEfectivos g)
    rw [h]
  · intro h
    rw [evaluaciones_getElem, evaluaciones_getElem, h]

/-- C9 witness: an all-absent FAQ set and a FAQ set of five present but
empty pairs have the same effective texts, hence identical verdicts; and
slot 2 of the two sets is evaluated identically. -/
theorem C9_testigo :
    validar_calidad_faqs_mejorada fsAusente = validar_calidad_faqs_mejorada fsNeutro
    ∧ (evaluacionesDePares (paresEfectivos fsAusente))[2]?
      = (evaluacionesDePares (paresEfectivos fsNeutro))[2]? :=
  ⟨(C9_determinismo fsAusente fsNeutro 0).1 (by decide),
   (C9_determinismo fsAusente fsNeutro 2).2 (by decide)⟩

theorem pAsignar_misma_clave (p : Producto) (clave v : String) :
    pObtener (pAsignar p clave v) clave = some v := by
  induction p with
  | nil => simp [pAsignar, pObtener]
  | cons kv resto ih =>
    by_cases h : kv.1 = clave
    · simp [pAsignar, pObtener, h]
    · simp [pAsignar, pObtener, h, ih]

theorem pAsignar_otra_clave (p : Producto) (clave v k : String) (h : k ≠ clave) :
    pObtener (pAsignar p clave v) k = pObtener p k := by
  have hck : ¬ clave = k := fun hx => h hx.symm
  induction p with
  | nil =>
    simp only [pAsignar, pObtener]
    rw [if_neg hck]
  | cons kv resto ih =>
    obtain ⟨k1, v1⟩ := kv
    by_cases hk : k1 = clave
    · subst hk
      simp only [pAsignar, if_pos rfl, pObtener]
      rw [if_neg hck, if_neg hck]
    · simp only [pAsignar, if_neg hk, pObtener]
      by_cases hx : k1 = k
      · rw [if_pos hx, if_pos hx]
      · rw [if_neg hx, if_neg hx, ih]

/-- C10: the retry loop mutates the caller's record only when the
available description is shorter than 50 characters, writing the enriched
description under `'Body HTML'` when that key is present and under
`'Body (HTML)'` otherwise, leaving every other field unchanged; records
with a description of 50 or more characters are returned untouched. -/
theorem C10_mutacion_descripcion (p : Producto) :
    (50 ≤ (obtener_descripcion_producto p).length → actualizar_descripcion p = p)
    ∧ ((obtener_descripcion_producto p).length < 50 →
        (pTiene p "Body HTML" = true →
          pObtener (actualizar_descripcion p) "Body HTML"
            = some (enriquecer_descripcion_basica p (obtener_descripcion_producto p))
          ∧ ∀ k, k ≠ "Body HTML" →
              pObtener (actualizar_descripcion p) k = pObtener p k)
        ∧ (pTiene p "Body HTML" = false →
          pObtener (actualizar_descripcion p) "Body (HTML)"
            = some (enriquecer_descripcion_basica p (obtener_descripcion_producto p))
          ∧ ∀ k, k ≠ "Body (HTML)" →
              pObtener (actualizar_descripcion p) k = pObtener p k)) := by
  constructor
  · intro h
    unfold actualizar_descripcion
    rw [if_neg (not_lt.mpr h)]
  · intro h
    constructor
    · intro ht
      unfold actualizar_descripcion
      rw [if_pos h, if_pos ht]
      exact ⟨pAsignar_misma_clave p _ _, fun k hk => pAsignar_otra_clave p _ _ k hk⟩
    · intro ht
      unfold actualizar_descripcion
      rw [if_pos h, if_neg (by simp [ht])]
      exact ⟨pAsignar_misma_clave p _ _, fun k hk => pAsignar_otra_clave p _ _ k hk⟩

/-- C10 witness: a record with a 5-character `Body HTML` gets exactly
that key overwritten with the enriched description while `Title` is
untouched, and a record with a 60-character description is returned
unchanged. -/
theorem C10_testigo :
    pObtener (actualizar_descripcion [("Title", "Producto X"), ("Body HTML", "corto")])
        "Body HTML"
      = some (enriquecer_descripcion_basica
          [("Title", "Producto X"), ("Body HTML", "corto")]
          (obtener_descripcion_producto [("Title", "Producto X"), ("Body HTML", "corto")]))
    ∧ pObtener (actualizar_descripcion [("Title", "Producto X"), ("Body HTML", "corto")])
        "Title"
      = pObtener [("Title", "Producto X"), ("Body HTML", "corto")] "Title"
    ∧ actualizar_descripcion
        [("Body HTML", String.mk (List.replicate 60 'x'))]
      = [("Body HTML", String.mk (List.replicate 60 'x'))] := by
  refine ⟨?_, ?_, ?_⟩
  · exact (((C10_mutacion_descripcion _).2 (by decide)).1 (by decide)).1
  · exact (((C10_mutacion_descripcion _).2 (by decide)).1 (by decide)).2 "Title" (by decide)
  · exact (C10_mutacion_descripcion _).1 (by decide)

/-- C2 counterexample: the Product Analyzer is not total — on a record
whose price field holds the unparsable, truthy string `"abc"`, the
`float(...)` call raises and `analizar_producto_profundo` errors instead
of yielding `high_price = false`. -/
theorem C2_contraejemplo :
    analizar_producto_profundo [("Variant Price", "abc")] = none
    ∧ pObtener [("Variant Price", "abc")] "Variant Price" = some "abc"
    ∧ pyFloat "abc" = none := by
  refine ⟨by decide, by decide, by decide⟩

/-- C2 amended: `high_price` is `parsed price > 50`; a missing or empty
(falsy) price field yields `high_price = false` without error; but a
non-empty price that does not parse as a float makes the analysis raise
`ValueError` (modelled as `none`) — the analysis is not total. -/
theorem C2_precio_alto (p : Producto) :
    (pObtener p "Variant Price" = none →
      Option.map Analisis.precio_alto (analizar_producto_profundo p) = some false)
    ∧ (pObtener p "Variant Price" = some "" →
      Option.map Analisis.precio_alto (analizar_producto_profundo p) = some false)
    ∧ (∀ v f, pObtener p "Variant Price" = some v → v ≠ "" → pyFloat v = some f →
      Option.map Analisis.precio_alto (analizar_producto_profundo p)
        = some (f.mayorQue 50))
    ∧ (∀ v, pObtener p "Variant Price" = some v → v ≠ "" → pyFloat v = none →
      analizar_producto_profundo p = none) := by
  refine ⟨fun h => ?_, fun h => ?_, fun v f hv hne hf => ?_, fun v hv hne hf => ?_⟩
  · simp [analizar_producto_profundo, h]
  · simp [analizar_producto_profundo, h]
  · simp [analizar_producto_profundo, hv, hne, hf]
  · simp [analizar_producto_profundo, hv, hne, hf]

/-- C2 witness: the four branches of `C2_precio_alto` at concrete
records — price absent, price empty, price `"60"` (parses to 60 > 50),
price `"abc"` (raises). -/
theorem C2_testigo :
    Option.map Analisis.precio_alto (analizar_producto_profundo [("Title", "x")])
      = some false
    ∧ Option.map Analisis.precio_alto (analizar_producto_profundo [("Variant Price", "")])
      = some false
    ∧ Option.map Analisis.precio_alto (analizar_producto_profundo [("Variant Price", "60")])
      = some ((PyFloat.finito 60).mayorQue 50)
    ∧ analizar_producto_profundo [("Variant Price", "abc")] = none :=
  ⟨(C2_precio_alto [("Title", "x")]).1 (by decide),
   (C2_precio_alto [("Variant Price", "")]).2.1 (by decide),
   (C2_precio_alto [("Variant Price", "60")]).2.2.1 "60" (PyFloat.finito 60)
     (by decide) (by decide) (by rfl),
   (C2_precio_alto [("Variant Price", "abc")]).2.2.2 "abc" (by decide) (by decide)
     (by decide)⟩

theorem prioridades_sin_repetir (p : Producto) (a : Analisis) :
    (prioridades p a).Nodup := by
  unfold prioridades
  split_ifs <;> decide

theorem prioridades_en_banco (p : Producto) (a : Analisis) :
    ∀ c ∈ prioridades p a, c ∈ todas_categorias := by
  unfold prioridades todas_categorias
  split_ifs <;> decide

theorem subperm_sin_repetir {l₁ l₂ : List String}
    (h : List.Subperm l₁ l₂) (hn : l₂.Nodup) : l₁.Nodup := by
  obtain ⟨l, hperm, hsub⟩ := h
  exact (List.Perm.nodup_iff hperm).mp (hsub.nodup hn)

theorem seleccion_finales_largo {p : Producto} {a : Analisis}
    (s : SeleccionCategorias p a) : s.finales.length = 5 := by
  rw [s.barajadas.length_eq, List.length_append, s.largo_ad, s.largo_sel]
  have : min 2 (prioridades p a).length ≤ 2 := min_le_left _ _
  omega

theorem seleccion_resultado_eq {p : Producto} {a : Analisis}
    (s : SeleccionCategorias p a) : s.resultado = s.finales := by
  unfold SeleccionCategorias.resultado
  rw [← seleccion_finales_largo s]
  exact List.take_length s.finales

/-- C3: for every outcome of the random sampling and shuffling, category
selection returns exactly 5 distinct categories drawn from the fixed
8-category bank; the sampled priority categories are all included; and
when at most two priority categories exist, every priority category is
included (none is ever invented — the sample is drawn from
`prioridades`). -/
theorem C3_seleccion_categorias (p : Producto) (a : Analisis)
    (s : SeleccionCategorias p a) :
    s.resultado.length = 5
    ∧ s.resultado.Nodup
    ∧ (∀ c ∈ s.resultado, c ∈ todas_categorias)
    ∧ (∀ c ∈ s.seleccionadas, c ∈ s.resultado)
    ∧ ((prioridades p a).length ≤ 2 →
        ∀ c ∈ prioridades p a, c ∈ s.resultado) := by
  rw [seleccion_resultado_eq s]
  have hsel_nodup : s.seleccionadas.Nodup :=
    subperm_sin_repetir s.muestra_sel (prioridades_sin_repetir p a)
  have had_nodup : s.adicionales.Nodup :=
    subperm_sin_repetir s.muestra_ad ((by decide : todas_categorias.Nodup).filter _)
  have hdisj : s.seleccionadas.Disjoint s.adicionales := by
    intro c hcs hca
    have hmem := s.muestra_ad.subset hca
    rw [List.mem_filter] at hmem
    have := hmem.2
    simp only [decide_eq_true_eq] at this
    exact this (by simpa using hcs)
  refine ⟨seleccion_finales_largo s, ?_, ?_, ?_, ?_⟩
  · rw [s.barajadas.nodup_iff]
    exact List.nodup_append.mpr ⟨hsel_nodup, had_nodup, hdisj⟩
  · intro c hc
    have hc' := (s.barajadas.mem_iff).mp hc
    rcases List.mem_append.mp hc' with h1 | h2
    · exact prioridades_en_banco p a c (s.muestra_sel.subset h1)
    · have hmem := s.muestra_ad.subset h2
      exact List.mem_of_mem_filter hmem
  · intro c hc
    exact (s.barajadas.mem_iff).mpr (List.mem_append.mpr (Or.inl hc))
  · intro hle c hc
    have hperm : s.seleccionadas.Perm (prioridades p a) := by
      refine s.muestra_sel.perm_of_length_le ?_
      rw [s.largo_sel]
      omega
    have : c ∈ s.seleccionadas := (hperm.mem_iff).mpr hc
    exact (s.barajadas.mem_iff).mpr (List.mem_append.mpr (Or.inl this))

/-- C3 applied to the concrete outcome `seleccionEjemplo`: 5 distinct
bank categories, and the single priority category is included. -/
theorem C3_testigo :
    seleccionEjemplo.resultado.length = 5
    ∧ seleccionEjemplo.resultado.Nodup
    ∧ (∀ c ∈ seleccionEjemplo.resultado, c ∈ todas_categorias)
    ∧ (∀ c ∈ prioridades [] analisisEjemplo, c ∈ seleccionEjemplo.resultado) := by
  obtain ⟨h1, h2, h3, -, h5⟩ := C3_seleccion_categorias [] analisisEjemplo seleccionEjemplo
  exact ⟨h1, h2, h3, h5 (by decide)⟩

set_option maxRecDepth 200000 in
/-- C1 counterexample: all three attempts return the parseable, complete
FAQ document `jsonCorruptoStr` (mean score -2 ≤ 0), yet the controller
returns `None` — refuting that failure occurs only when zero attempts
parsed successfully. -/
theorem C1_contraejemplo :
    parsearRespuesta jsonCorruptoStr = some fsCorrupto
    ∧ (extraerPares fsCorrupto).isSome = true
    ∧ generarDesdeCrudos []
        [IntentoCrudo.respuesta jsonCorruptoStr, IntentoCrudo.respuesta jsonCorruptoStr,
         IntentoCrudo.respuesta jsonCorruptoStr]
      = DesenlaceBucle.sinResultado := by
  refine ⟨by decide, by decide, by decide⟩

/-- C1 amended: when the loop exhausts its attempts without an early pass
and every parsed attempt is a complete FAQ set, the controller returns
the Best-So-Far result iff some parsed attempt has mean score strictly
greater than 0; it returns `None` not only when zero attempts parsed but
also when every parsed attempt's mean score is at most 0 (the best-so-far
update requires `puntuacion > mejor_puntuacion` with `mejor_puntuacion`
initialised to 0). -/
theorem C1_mejor_esfuerzo (p : Producto) (intentos : List (Option FaqSet))
    (hana : (analizar_producto_profundo p).isSome = true)
    (hnp : ∀ fs : FaqSet, some fs ∈ intentos →
      esPaseTemprano (validar_calidad_faqs_mejorada fs) = false)
    (hcompleto : ∀ fs : FaqSet, some fs ∈ intentos → (extraerPares fs).isSome = true) :
    ((∀ fs : FaqSet, some fs ∈ intentos →
        (validar_calidad_faqs_mejorada fs).metricas.puntuacion_media ≤ 0) →
      generar_faqs_con_reintentos_mejorado p intentos = DesenlaceBucle.sinResultado)
    ∧ ((∃ fs : FaqSet, some fs ∈ intentos ∧
        0 < (validar_calidad_faqs_mejorada fs).metricas.puntuacion_media) →
      ∃ r, generar_faqs_con_reintentos_mejorado p intentos
        = DesenlaceBucle.resultado r) := by
  obtain ⟨a, ha⟩ := Option.isSome_iff_exists.mp hana
  constructor
  · intro hb
    unfold generar_faqs_con_reintentos_mejorado
    rw [ha, bucle_todos_bajos intentos 1 none hb]
  · rintro ⟨fs, hmem, hpos⟩
    have hdom := bucle_media_domina intentos 1 ⟨none, 0⟩ hnp fs hmem
    have hmp : 0 < (bucleIntentos intentos 1 ⟨none, 0⟩).mejorPuntuacion :=
      lt_of_lt_of_le hpos hdom
    have hne : (bucleIntentos intentos 1 ⟨none, 0⟩).mejor ≠ none := by
      intro hn
      rw [bucle_mejor_none_estado intentos 1 _ hn] at hmp
      exact absurd hmp (by simp)
    obtain ⟨b, hbm⟩ := Option.ne_none_iff_exists'.mp hne
    have hbfs : some b.faqs ∈ intentos := by
      rcases bucle_mejor_origen intentos 1 ⟨none, 0⟩ b hbm with h1 | h2
      · exact absurd h1 (by simp)
      · exact h2
    obtain ⟨xs, hxs⟩ := Option.isSome_iff_exists.mp (hcompleto b.faqs hbfs)
    refine ⟨{ handle := pObtenerD (actualizar_descripcion p) "Handle" ""
              pares := xs
              calidad := b.metricas.calidad_general
              intentos := b.intento
              puntuacion := b.metricas.puntuacion_media }, ?_⟩
    simp [generar_faqs_con_reintentos_mejorado, ha, hbm, construirResultado, hxs]

/-- C1 witness: an exhausted loop (a corrupt parse, an API failure and a
low-but-positive parse) yields a Best-So-Far result. -/
theorem C1_testigo :
    ∃ r, generar_faqs_con_reintentos_mejorado []
        [some fsCorrupto, none, some fsNeutro] = DesenlaceBucle.resultado r := by
  have hnp : ∀ fs : FaqSet,
      some fs ∈ ([some fsCorrupto, none, some fsNeutro] : List (Option FaqSet)) →
      esPaseTemprano (validar_calidad_faqs_mejorada fs) = false := by
    intro fs hfs
    rcases List.mem_cons.mp hfs with h | h
    · injection h with h; subst h; decide
    rcases List.mem_cons.mp h with h2 | h2
    · exact absurd h2 (by simp)
    rcases List.mem_cons.mp h2 with h3 | h3
    · injection h3 with h3; subst h3; decide
    · exact absurd h3 (by simp)
  have hcompleto : ∀ fs : FaqSet,
      some fs ∈ ([some fsCorrupto, none, some fsNeutro] : List (Option FaqSet)) →
      (extraerPares fs).isSome = true := by
    intro fs hfs
    rcases List.mem_cons.mp hfs with h | h
    · injection h with h; subst h; decide
    rcases List.mem_cons.mp h with h2 | h2
    · exact absurd h2 (by simp)
    rcases List.mem_cons.mp h2 with h3 | h3
    · injection h3 with h3; subst h3; decide
    · exact absurd h3 (by simp)
  exact (C1_mejor_esfuerzo [] [some fsCorrupto, none, some fsNeutro]
      (by decide) hnp hcompleto).2
    ⟨fsNeutro, by decide, by decide⟩

/-- C7: the claim's "always ends in exactly one of DONE_PASS,
DONE_BEST_EFFORT, DONE_FAILED" is violated by the code: when each attempt
returns the valid JSON object `{}` (which parses, is scored with default
empty texts, mean 1 > 0, and becomes Best-So-Far), the final result
assembly indexes `faqs['faq1']` directly and raises an uncaught
`KeyError`, so the run ends in an escaped exception instead of any DONE
state — while the response was parseable (not an API/parse failure) and
the loop itself performed its 3 attempts. -/
theorem C7_excepcion_en_ensamblado :
    (parsearRespuesta jsonVacioStr).isSome = true
    ∧ intentosUsados ([IntentoCrudo.respuesta jsonVacioStr,
        IntentoCrudo.respuesta jsonVacioStr,
        IntentoCrudo.respuesta jsonVacioStr].map intentoDeCrudo) = 3
    ∧ generarDesdeCrudos [] [IntentoCrudo.respuesta jsonVacioStr,
        IntentoCrudo.respuesta jsonVacioStr, IntentoCrudo.respuesta jsonVacioStr]
      = DesenlaceBucle.excepcion := by
  refine ⟨by decide, by decide, by decide⟩

theorem datos_cadena_append (a b : String) : (a ++ b).data = a.data ++ b.data := rfl

theorem esPrefijo_de_append (l₁ l₂ : List Char) : l₁.isPrefixOf (l₁ ++ l₂) = true := by
  induction l₁ with
  | nil => simp [List.isPrefixOf]
  | cons c resto ih => simp [List.isPrefixOf, ih]

theorem esSufijo_de_append (l₁ l₂ : List Char) : l₂.isSuffixOf (l₁ ++ l₂) = true := by
  simp only [List.isSuffixOf, List.reverse_append]
  exact esPrefijo_de_append l₂.reverse l₁.reverse

theorem stripFence_json (crudo interno : String)
    (h : pyRecorta crudo = "```json" ++ interno ++ "```") :
    stripFence crudo = interno := by
  have hdata : ("```json" ++ interno ++ "```" : String).data
      = ("```json" : String).data ++ (interno.data ++ ("```" : String).data) := by
    simp [datos_cadena_append, List.append_assoc]
  have hlen7 : ("```json" : String).data.length = 7 := rfl
  have hpre : pyEmpiezaCon ("```json" ++ interno ++ "```") "```json" = true := by
    unfold pyEmpiezaCon
    rw [hdata]
    exact esPrefijo_de_append _ _
  have hdesde : pyDesde ("```json" ++ interno ++ "```") 7
      = ⟨interno.data ++ ("```" : String).data⟩ := by
    unfold pyDesde
    rw [hdata, ← hlen7, List.drop_left]
  have hsuf : pyTerminaCon ⟨interno.data ++ ("```" : String).data⟩ "```" = true :=
    esSufijo_de_append interno.data ("```" : String).data
  unfold stripFence
  rw [h]
  simp only [hpre, hdesde, hsuf, if_true, ite_true]
  unfold pySinUltimos
  show String.mk (List.take ((interno.data ++ ("```" : String).data).length - 3)
    (interno.data ++ ("```" : String).data)) = interno
  rw [List.length_append]
  have hlen3 : ("```" : String).data.length = 3 := rfl
  rw [hlen3, Nat.add_sub_cancel, List.take_left]

/-- C8 amended: only responses whose stripped text opens with the exact
fence `'```json'` are unfenced — such a response (with a closing
`'```'`) has exactly its fenced payload parsed; and any response whose
processing fails to parse consumes one attempt and the loop simply moves
on (it never crashes the controller, which is total).  A response
wrapped in a bare `'```'` fence is *not* stripped at the front and is a
parse failure (see the counterexample). -/
theorem C8_valla_y_fallo (crudo interno s : String) (resto : List (Option FaqSet))
    (n : Nat) (st : EstadoBucle) :
    (pyRecorta crudo = "```json" ++ interno ++ "```" →
      parsearRespuesta crudo = faqsDesdeJson interno)
    ∧ (parsearRespuesta s = none →
        bucleIntentos (intentoDeCrudo (IntentoCrudo.respuesta s) :: resto) n st
          = bucleIntentos resto (n + 1) st) := by
  constructor
  · intro h
    unfold parsearRespuesta
    rw [stripFence_json crudo interno h]
  · intro h
    show bucleIntentos (parsearRespuesta s :: resto) n st = bucleIntentos resto (n + 1) st
    rw [h]
    exact bucleIntentos_none resto n st

set_option maxRecDepth 200000 in
/-- C8 counterexample: a response wrapped in a bare `'```'` code fence
whose inner content is a perfectly parseable FAQ document is NOT parsed
(only the trailing fence is stripped; the opening one survives because
the code only strips a `'```json'` opener), refuting "when the text is
wrapped in a code fence, the fence is stripped before JSON parsing and
the inner content is parsed". -/
theorem C8_contraejemplo :
    (faqsDesdeJson jsonBuenoStr).isSome = true
    ∧ pyEmpiezaCon (pyRecorta ("```" ++ "\n" ++ jsonBuenoStr ++ "\n" ++ "```")) "```" = true
    ∧ pyTerminaCon (pyRecorta ("```" ++ "\n" ++ jsonBuenoStr ++ "\n" ++ "```")) "```" = true
    ∧ parsearRespuesta ("```" ++ "\n" ++ jsonBuenoStr ++ "\n" ++ "```") = none := by
  refine ⟨by decide, by decide, by decide, by decide⟩

set_option maxRecDepth 200000 in
/-- C8 witness: `C8_valla_y_fallo` applied to a `'```json'`-fenced copy
of `jsonBuenoStr` (its payload is parsed) and to the non-JSON response
`"no es json"` (one attempt consumed, loop state untouched). -/
theorem C8_testigo :
    parsearRespuesta ("```json" ++ jsonBuenoStr ++ "```") = faqsDesdeJson jsonBuenoStr
    ∧ bucleIntentos
        (intentoDeCrudo (IntentoCrudo.respuesta "no es json") :: [some fsNeutro]) 1
        ⟨none, 0⟩
      = bucleIntentos [some fsNeutro] 2 ⟨none, 0⟩ :=
  ⟨(C8_valla_y_fallo ("```json" ++ jsonBuenoStr ++ "```") jsonBuenoStr "" [] 0
      ⟨none, 0⟩).1 (by decide),
   (C8_valla_y_fallo "" "" "no es json" [some fsNeutro] 1 ⟨none, 0⟩).2 (by decide)⟩
